import Mathlib

/-!
Shallow embedding of the buddy8800 Intel 8080 emulator core:
the register file (`cpu_state`), the S-100 bus with data (RAM/ROM) and
serial (6850 ACIA) cards, and the CPU interpreter, together with theorems
checking the natural-language specification against this code.

Machine integers are modelled as `Nat` with explicit masking: a `u8` value
is kept under `&&& 0xFF`, a `u16` under `&&& 0xFFFF`, mirroring the C++
types at parameter passing and storage points.
-/

set_option maxRecDepth 8192

namespace Buddy

/-! ### Register and flag encodings (src/cpu_state.hpp)

`cpu_registers8` enumerator values, in declaration order:
`A, F, B, C, D, E, H, L, HIGH_SP, LOW_SP, HIGH_PC, LOW_PC, _M`. -/

namespace cpu_registers8

def A : Nat := 0
def F : Nat := 1
def B : Nat := 2
def C : Nat := 3
def D : Nat := 4
def E : Nat := 5
def H : Nat := 6
def L : Nat := 7
def HIGH_SP : Nat := 8
def LOW_SP : Nat := 9
def HIGH_PC : Nat := 10
def LOW_PC : Nat := 11
def M : Nat := 12

end cpu_registers8

/-- Check if a register is actually a memory reference (`is_memref`). -/
def is_memref (reg : Nat) : Bool := reg == cpu_registers8.M

/-- Provides correct registers coming from opcode register selection
(`cpu_reg8_decode`): `{B, C, D, E, H, L, _M, A}`. -/
def cpu_reg8_decode : List Nat :=
  [cpu_registers8.B, cpu_registers8.C, cpu_registers8.D, cpu_registers8.E,
   cpu_registers8.H, cpu_registers8.L, cpu_registers8.M, cpu_registers8.A]

/-! The `cpu_registers16` enumerator values: `AF, BC, DE, HL, SP, PC`
(`PSW` is an alias of `AF`). -/

namespace cpu_registers16

def AF : Nat := 0
def PSW : Nat := 0
def BC : Nat := 1
def DE : Nat := 2
def HL : Nat := 3
def SP : Nat := 4
def PC : Nat := 5

end cpu_registers16

/-! The `cpu_flags` enumerator: each flag at its bit position in `F`. -/

namespace cpu_flags

def C : Nat := 0x01
def P : Nat := 0x04
def AC : Nat := 0x10
def Z : Nat := 0x40
def S : Nat := 0x80

end cpu_flags

/-- The six 16-bit cells of `std::array<u16, 6> registers`. -/
structure reg_file where
  r0 : Nat
  r1 : Nat
  r2 : Nat
  r3 : Nat
  r4 : Nat
  r5 : Nat
deriving DecidableEq, Repr

/-- Array indexing `registers[i]` (indices over 5 never occur in the source;
they are mapped to a dummy 0 cell to keep the function total). -/
def reg_file.get (r : reg_file) (i : Nat) : Nat :=
  match i with
  | 0 => r.r0
  | 1 => r.r1
  | 2 => r.r2
  | 3 => r.r3
  | 4 => r.r4
  | 5 => r.r5
  | _ => 0

/-- Array update `registers[i] = v` (out-of-range indices are a no-op;
they never occur in the source). -/
def reg_file.set (r : reg_file) (i v : Nat) : reg_file :=
  match i with
  | 0 => { r with r0 := v }
  | 1 => { r with r1 := v }
  | 2 => { r with r2 := v }
  | 3 => { r with r3 := v }
  | 4 => { r with r4 := v }
  | 5 => { r with r5 := v }
  | _ => r

/-- Represents the state of the CPU (`struct cpu_state`). -/
structure cpu_state where
  registers : reg_file
deriving DecidableEq, Repr

/-- Get the value of an 8 bit register:
`(registers[reg >> 1] >> (8 * !(reg & 1))) & 0xFF`. -/
def cpu_state.get_register8 (s : cpu_state) (reg : Nat) : Nat :=
  (s.registers.get (reg >>> 1) >>> (8 * (1 - (reg &&& 1)))) &&& 0xFF

/-- Set the value of an 8 bit register:
`registers[reg >> 1] &= 0xFF00 >> sh; registers[reg >> 1] |= value << sh`
with `sh = 8 * !(reg & 1)`.

Modelled from the spec: the `cpu_state.hpp` revision the core CPU compiles
against (the one defining the `flg*` accessors used by
`src/core/cpu/cpu.hpp`) is not in the source tree; per the spec, every
write to `F` enforces the flag mask (bit 1 always 1, bits 3 and 5 always
0), which the repository's `test_cpu_state.hpp` also requires. The rest of
this definition is taken from the `set_register8` in the tree. -/
def cpu_state.set_register8 (s : cpu_state) (reg v : Nat) : cpu_state :=
  let value := v &&& 0xFF
  let value := if reg = cpu_registers8.F then (value ||| 0x02) &&& 0xD7 else value
  let i := reg >>> 1
  let sh := 8 * (1 - (reg &&& 1))
  { s with registers :=
      s.registers.set i ((s.registers.get i &&& (0xFF00 >>> sh)) ||| (value <<< sh)) }

/-- Get the value of a 16 bit register pair (`registers[pair]`, a `u16`). -/
def cpu_state.get_register16 (s : cpu_state) (pair : Nat) : Nat :=
  s.registers.get pair &&& 0xFFFF

/-- Set the value of a 16 bit register pair (`registers[pair] = value`).

Modelled from the spec (see `cpu_state.set_register8`): a 16-bit write to
`AF` also enforces the flag mask on its low byte, so that `POP PSW`
normalizes the received `F` byte as the spec requires. -/
def cpu_state.set_register16 (s : cpu_state) (pair v : Nat) : cpu_state :=
  let value := v &&& 0xFFFF
  let value := if pair = cpu_registers16.AF then (value ||| 0x02) &&& 0xFFD7 else value
  { s with registers := s.registers.set pair value }

/-- Get the value of a 16 bit register pair and then increment it
(`registers[pair]++`, wrapping as a `u16`). -/
def cpu_state.get_then_inc_register16 (s : cpu_state) (pair : Nat) : Nat × cpu_state :=
  let value := s.get_register16 pair
  (value, { s with registers := s.registers.set pair ((value + 1) &&& 0xFFFF) })

/-- Increment an 8 bit register (`set_register8(reg, get_register8(reg) + 1)`). -/
def cpu_state.inc_register8 (s : cpu_state) (reg : Nat) : cpu_state :=
  s.set_register8 reg (s.get_register8 reg + 1)

/-- Increment a 16 bit register (`++registers[pair]`, wrapping as a `u16`). -/
def cpu_state.inc_register16 (s : cpu_state) (pair : Nat) : cpu_state :=
  { s with registers := s.registers.set pair ((s.get_register16 pair + 1) &&& 0xFFFF) }

/-- Get the value of a flag (`get_register8(F) & flag`, as a truth value). -/
def cpu_state.get_flag (s : cpu_state) (flag : Nat) : Bool :=
  (s.get_register8 cpu_registers8.F &&& flag) != 0

/-- Set a flag (`set_register8(F, F | flag)`). -/
def cpu_state.set_flag (s : cpu_state) (flag : Nat) : cpu_state :=
  s.set_register8 cpu_registers8.F (s.get_register8 cpu_registers8.F ||| flag)

/-- Unset a flag (`set_register8(F, F & ~flag)`; the complement is taken at
byte width, matching the `u8` parameter truncation). -/
def cpu_state.unset_flag (s : cpu_state) (flag : Nat) : cpu_state :=
  s.set_register8 cpu_registers8.F (s.get_register8 cpu_registers8.F &&& (0xFF ^^^ flag))

/-- Set or unset a flag based on a boolean condition (`set_if_flag`). -/
def cpu_state.set_if_flag (s : cpu_state) (flag : Nat) (cond : Bool) : cpu_state :=
  if cond then s.set_flag flag else s.unset_flag flag

/-- Number of set bits in the low byte (for `__builtin_parity` on a `u8`). -/
def bit_count8 (v : Nat) : Nat :=
  (List.range 8).countP (fun i => v.testBit i)

/-- Set or unset all non-carry flags based on a provided value
(`set_Z_S_P_flags(u8 is)`): Z iff zero, S from bit 7, P iff even parity. -/
def cpu_state.set_Z_S_P_flags (s : cpu_state) (v : Nat) : cpu_state :=
  let is8 := v &&& 0xFF
  let s := s.set_if_flag cpu_flags.Z (is8 == 0)
  let s := s.set_if_flag cpu_flags.S ((is8 &&& 0x80) != 0)
  s.set_if_flag cpu_flags.P (bit_count8 is8 % 2 == 0)

/-- Carry flag getter shortcut. Modelled from the spec: the `flg*`
shortcut accessors used by `src/core/cpu/cpu.hpp` live in the missing
`cpu_state.hpp` revision; they read and write single flags, i.e. the
spec's `get_flag(Flag)` / `set_flag(Flag, bool)`. -/
def cpu_state.flgC (s : cpu_state) : Bool := s.get_flag cpu_flags.C

/-- Carry flag setter shortcut (see `cpu_state.flgC`). -/
def cpu_state.flgC_set (s : cpu_state) (cond : Bool) : cpu_state :=
  s.set_if_flag cpu_flags.C cond

/-- Auxiliary-carry flag getter shortcut (see `cpu_state.flgC`). -/
def cpu_state.flgAC (s : cpu_state) : Bool := s.get_flag cpu_flags.AC

/-- Auxiliary-carry flag setter shortcut (see `cpu_state.flgC`). -/
def cpu_state.flgAC_set (s : cpu_state) (cond : Bool) : cpu_state :=
  s.set_if_flag cpu_flags.AC cond

/-- The `cpu_state` constructor: all register space zero, then
`set_register16(AF, 0x02)` (bit 1 of `F` is always one). -/
def cpu_state.init : cpu_state :=
  cpu_state.set_register16 { registers := ⟨0, 0, 0, 0, 0, 0⟩ } cpu_registers16.AF 0x02

example : cpu_state.init.get_register8 cpu_registers8.F = 0x02 := by decide

example : (cpu_state.init.set_register8 cpu_registers8.F 0xFF).get_register8
    cpu_registers8.F = 0xD7 := by decide

example : ((cpu_state.init.set_register8 cpu_registers8.B 0x12).set_register8
    cpu_registers8.C 0x34).get_register16 cpu_registers16.BC = 0x1234 := by decide

/-! ### The external byte endpoint (`pty`)

Modelled from the spec: the pseudo-terminal OS wrapper is out of the
scope of the core source (`unix_pty` is an OS-facing collaborator); per
the spec it offers `open/poll/getch/putch/send_break/setup/set_baud_rate`.
Bytes available for reading are modelled as a queue, and all outgoing
calls are recorded in an event log. -/

/-- Parity settings of the endpoint (`pty_parity`). -/
inductive pty_parity where
  | NONE
  | EVEN
  | ODD
deriving DecidableEq, Repr

/-- Outgoing calls on the external byte endpoint. -/
inductive pty_event where
  | opened
  | set_baud_rate (rate : Nat)
  | setup (data_bits : Nat) (parity : pty_parity) (stop_bits : Nat)
  | send_break
  | putch (b : Nat)
deriving DecidableEq, Repr

/-- State of the external byte endpoint: pending input bytes plus the log
of outgoing calls. -/
structure pty where
  input : List Nat
  events : List pty_event
deriving DecidableEq, Repr

/-- Non-blocking availability check (`poll`). -/
def pty.poll (p : pty) : Bool := !p.input.isEmpty

/-- Read one byte (`getch`); only called after `poll` succeeds. -/
def pty.getch (p : pty) : Nat × pty :=
  match p.input with
  | [] => (0, p)
  | b :: rest => (b, { p with input := rest })

/-- Write one byte (`putch`). -/
def pty.putch (p : pty) (b : Nat) : pty :=
  { p with events := p.events ++ [pty_event.putch b] }

/-- Configure the line rate (`set_baud_rate`). -/
def pty.set_baud_rate (p : pty) (rate : Nat) : pty :=
  { p with events := p.events ++ [pty_event.set_baud_rate rate] }

/-- Configure framing (`setup`). -/
def pty.setup (p : pty) (data_bits : Nat) (parity : pty_parity) (stop_bits : Nat) : pty :=
  { p with events := p.events ++ [pty_event.setup data_bits parity stop_bits] }

/-- Send a break condition (`send_break`). -/
def pty.send_break (p : pty) : pty :=
  { p with events := p.events ++ [pty_event.send_break] }

/-! ### Data card (RAM / ROM), from src/core/bus/card.hpp -/

/-- The value `BAD_U8` from `typedef.hpp`. -/
def BAD_U8 : Nat := 0xFF

/-- A card that holds a fixed amount of data (`data_card`): a contiguous
byte buffer of `capacity` bytes starting at `start_adr`, with a write
lock. The buffer is the `std::vector<u8> data`. -/
structure data_card where
  start_adr : Nat
  capacity : Nat
  data : List Nat
  write_locked : Bool
deriving DecidableEq, Repr

/-- Construct a card with a fixed capacity and simple one byte fill
(`data.resize(capacity, fill)`). -/
def data_card.mk_fill (start_adr capacity fill : Nat) (lock : Bool) : data_card :=
  { start_adr := start_adr, capacity := capacity,
    data := List.replicate capacity (fill &&& 0xFF), write_locked := lock }

/-- Check if an address on the bus is in the data card's range
(`adr >= start_adr and adr < start_adr + capacity`). -/
def data_card.in_range (c : data_card) (adr : Nat) : Bool :=
  decide (c.start_adr ≤ adr) && decide (adr < c.start_adr + c.capacity)

/-- Read a byte from the data card (`data[adr - start_adr]`); indexing the
vector out of bounds is undefined behavior, modelled as `none`. -/
def data_card.read (c : data_card) (adr : Nat) : Option Nat :=
  c.data.get? (adr - c.start_adr)

/-- Write a byte to the data card, honoring the write lock. -/
def data_card.write (c : data_card) (adr byte : Nat) : data_card :=
  if !c.write_locked then
    { c with data := c.data.set (adr - c.start_adr) (byte &&& 0xFF) }
  else c

/-- Write a byte to the data card regardless of write lock (`write_force`). -/
def data_card.write_force (c : data_card) (adr byte : Nat) : data_card :=
  { c with data := c.data.set (adr - c.start_adr) (byte &&& 0xFF) }

/-- Clear the data card: the source runs `data.clear()` when the card is
not write-locked, which empties the `std::vector` (its size becomes 0). -/
def data_card.clear (c : data_card) : data_card :=
  if !c.write_locked then { c with data := [] } else c

/-! ### Serial card (6850 ACIA), from src/core/bus/card.hpp -/

/-- The constant `SERIAL_IO_ADDRESSES`. -/
def SERIAL_IO_ADDRESSES : Nat := 2

/-- The constant `SERIAL_BASE_CLOCK`. -/
def SERIAL_BASE_CLOCK : Nat := 19200

/-! Bitmasks of the status register bits (`serial_status_flags`). -/

namespace serial_status_flags

def RDRF : Nat := 0x01
def TDRE : Nat := 0x02
def DCD : Nat := 0x04
def CTS : Nat := 0x08
def FE : Nat := 0x10
def OVRN : Nat := 0x20
def PE : Nat := 0x40
def IRQ : Nat := 0x80

end serial_status_flags

/-- A card that emulates a 6850 ACIA (`serial_card`). The four registers
`TX_DATA, RX_DATA, CONTROL, STATUS` are the `std::array<u8, 4> registers`
cells in declaration order. -/
structure serial_card where
  start_adr : Nat
  base_clock : Nat
  serial : pty
  tx_data : Nat
  rx_data : Nat
  control : Nat
  status : Nat
  divide_by : Nat
  rts : Bool
deriving DecidableEq, Repr

/-- Status-flag test `TDRE()` (`STATUS() & TDRE`). -/
def serial_card.TDRE (c : serial_card) : Bool :=
  (c.status &&& serial_status_flags.TDRE) != 0

/-- Status-flag test `RDRF()` (`STATUS() & RDRF`). -/
def serial_card.RDRF (c : serial_card) : Bool :=
  (c.status &&& serial_status_flags.RDRF) != 0

/-- Status-flag setter `TDRE(bool)`. -/
def serial_card.TDRE_set (c : serial_card) (value : Bool) : serial_card :=
  if value then { c with status := c.status ||| serial_status_flags.TDRE }
  else { c with status := c.status &&& (0xFF ^^^ serial_status_flags.TDRE) }

/-- Status-flag setter `RDRF(bool)`. -/
def serial_card.RDRF_set (c : serial_card) (value : Bool) : serial_card :=
  if value then { c with status := c.status ||| serial_status_flags.RDRF }
  else { c with status := c.status &&& (0xFF ^^^ serial_status_flags.RDRF) }

/-- Status-flag setter `IRQ(bool)`. -/
def serial_card.IRQ_set (c : serial_card) (value : Bool) : serial_card :=
  if value then { c with status := c.status ||| serial_status_flags.IRQ }
  else { c with status := c.status &&& (0xFF ^^^ serial_status_flags.IRQ) }

/-- The private `reset()`: zero all four registers, `divide_by = 4`,
reprogram the endpoint rate, `CONTROL = 0b10010101`, `TDRE = 1`,
`RTS = 1`. -/
def serial_card.reset (c : serial_card) : serial_card :=
  let c := { c with tx_data := 0, rx_data := 0, control := 0, status := 0, divide_by := 4 }
  let c := { c with serial := c.serial.set_baud_rate (c.base_clock >>> c.divide_by) }
  let c := { c with control := 0b10010101 }
  let c := c.TDRE_set true
  { c with rts := true }

/-- The `serial_card` constructor: open the endpoint, then `reset()`. -/
def serial_card.mk_new (start_adr : Nat) (base_clock : Nat) (input : List Nat) : serial_card :=
  serial_card.reset
    { start_adr := start_adr, base_clock := base_clock,
      serial := { input := input, events := [pty_event.opened] },
      tx_data := 0, rx_data := 0, control := 0, status := 0,
      divide_by := 0, rts := false }

/-- Check if an address is in the serial card's range: only the lower 8
bits of the address are decoded. -/
def serial_card.in_range (c : serial_card) (adr : Nat) : Bool :=
  decide (c.start_adr ≤ (adr &&& 0xFF)) &&
  decide ((adr &&& 0xFF) < c.start_adr + SERIAL_IO_ADDRESSES)

/-- Read a byte from the serial registers: first poll the endpoint into
`RX_DATA`/`RDRF` if `RDRF` is clear, then serve `STATUS` at the base
address, `RX_DATA` at the next one, `BAD_U8` otherwise. -/
def serial_card.read (c : serial_card) (adr : Nat) : Nat × serial_card :=
  let c :=
    if !c.RDRF && c.serial.poll then
      let (b, p) := c.serial.getch
      ({ c with serial := p, rx_data := b &&& 0xFF }).RDRF_set true
    else c
  if (adr &&& 0xFF) == c.start_adr then (c.status, c)
  else if (adr &&& 0xFF) == c.start_adr + 1 then (c.rx_data, c)
  else (BAD_U8, c)

/-- Write a byte to the serial registers. At the control port the byte is
decoded field by field (counter divide, word select, transmit control,
interrupt enable) and then latched raw into `CONTROL`; at the data port it
is latched into `TX_DATA` with `TDRE` cleared. Finally any pending
transmission is flushed to the endpoint. -/
def serial_card.write (c : serial_card) (adr byte : Nat) : serial_card :=
  let byte := byte &&& 0xFF
  let c :=
    if (adr &&& 0xFF) == c.start_adr then
      -- Counter Divide select bits
      let c :=
        match byte &&& 0b00000011 with
        | 0b00000000 =>
          let c := { c with divide_by := 1 }
          { c with serial := c.serial.set_baud_rate (c.base_clock >>> c.divide_by) }
        | 0b00000001 =>
          let c := { c with divide_by := 4 }
          { c with serial := c.serial.set_baud_rate (c.base_clock >>> c.divide_by) }
        | 0b00000010 =>
          let c := { c with divide_by := 6 }
          { c with serial := c.serial.set_baud_rate (c.base_clock >>> c.divide_by) }
        | _ => c.reset
      -- Word Select bits
      let c :=
        match byte &&& 0b00011100 with
        | 0b00000000 => { c with serial := c.serial.setup 7 pty_parity.EVEN 2 }
        | 0b00000100 => { c with serial := c.serial.setup 7 pty_parity.ODD 2 }
        | 0b00001000 => { c with serial := c.serial.setup 7 pty_parity.EVEN 1 }
        | 0b00001100 => { c with serial := c.serial.setup 7 pty_parity.ODD 1 }
        | 0b00010000 => { c with serial := c.serial.setup 8 pty_parity.NONE 2 }
        | 0b00010100 => { c with serial := c.serial.setup 8 pty_parity.NONE 1 }
        | 0b00011000 => { c with serial := c.serial.setup 8 pty_parity.EVEN 1 }
        | 0b00011100 => { c with serial := c.serial.setup 8 pty_parity.ODD 1 }
        | _ => c
      -- Transmit Control bits
      let c :=
        match byte &&& 0b01100000 with
        | 0b00000000 => { c with rts := true }
        | 0b00100000 => { c with rts := true }
        | 0b01000000 => { c with rts := false }
        | 0b01100000 => { { c with rts := true } with serial := c.serial.send_break }
        | _ => c
      -- Interrupt Enable bit
      let c :=
        match byte &&& 0b10000000 with
        | 0b00000000 => c.IRQ_set false
        | _ => c.IRQ_set true
      { c with control := byte }
    else if (adr &&& 0xFF) == c.start_adr + 1 then
      ({ c with tx_data := byte }).TDRE_set false
    else c
  if !c.TDRE then
    ({ c with serial := c.serial.putch c.tx_data }).TDRE_set true
  else c

/-! ### The closed set of cards on the bus -/

/-- The cards the emulator constructs: data cards (RAM/ROM) and serial
cards. The bus stores `card*` pointers to these concrete classes; their
virtual methods are dispatched below. -/
inductive cardv where
  | data (c : data_card)
  | serial (c : serial_card)
deriving DecidableEq, Repr

/-- Virtual dispatch of `in_range`. -/
def cardv.in_range (c : cardv) (adr : Nat) : Bool :=
  match c with
  | cardv.data dc => dc.in_range adr
  | cardv.serial sc => sc.in_range adr

/-- Virtual dispatch of `is_io`: false on a data card, true on a serial
card. -/
def cardv.is_io (c : cardv) : Bool :=
  match c with
  | cardv.data _ => false
  | cardv.serial _ => true

/-- Virtual dispatch of `read`. A serial read may update the card; a data
card read out of bounds is undefined behavior (`none`). -/
def cardv.read (c : cardv) (adr : Nat) : Option (Nat × cardv) :=
  match c with
  | cardv.data dc => (dc.read adr).map (fun b => (b, cardv.data dc))
  | cardv.serial sc =>
    let (b, sc2) := sc.read adr
    some (b, cardv.serial sc2)

/-- Virtual dispatch of `write` (honors write lock on data cards). -/
def cardv.write (c : cardv) (adr byte : Nat) : cardv :=
  match c with
  | cardv.data dc => cardv.data (dc.write adr byte)
  | cardv.serial sc => cardv.serial (sc.write adr byte)

/-- Virtual dispatch of `write_force` (the serial card forwards it to
`write`). -/
def cardv.write_force (c : cardv) (adr byte : Nat) : cardv :=
  match c with
  | cardv.data dc => cardv.data (dc.write_force adr byte)
  | cardv.serial sc => cardv.serial (sc.write adr byte)

/-- The `identify().start_adr` of a card, as used by the bus conflict
check. -/
def cardv.identify_start_adr (c : cardv) : Nat :=
  match c with
  | cardv.data dc => dc.start_adr
  | cardv.serial sc => sc.start_adr

/-! ### Bus, from src/core/bus/bus.hpp -/

/-- The constant `MAX_BUS_CARDS` (`N_SLOTS`). -/
def MAX_BUS_CARDS : Nat := 18

/-- The bus: slots of optional card pointers (`NO_CARD` is `none`) and
their `ignore_conflicts` bits. -/
structure bus where
  cards : List (Option cardv)
  ignore_conflicts : List Bool
deriving DecidableEq, Repr

/-- The `bus` constructor: every slot empty. -/
def bus.init : bus :=
  { cards := List.replicate MAX_BUS_CARDS none,
    ignore_conflicts := List.replicate MAX_BUS_CARDS false }

/-- The private `test_for_bus_conflict`: some non-empty slot whose
conflicts are not ignored shares `is_io` with the candidate card and
either range contains the other's `identify().start_adr`. -/
def bus.test_for_bus_conflict (b : bus) (c : cardv) : Bool :=
  (b.cards.zip b.ignore_conflicts).any (fun si =>
    match si with
    | (some cd, ig) =>
      !ig && (cd.is_io == c.is_io)
        && (cd.in_range c.identify_start_adr || c.in_range cd.identify_start_adr)
    | (none, _) => false)

/-- Errors the bus `insert` can throw, one per throw site. -/
inductive bus_error where
  | null_card
  | slot_out_of_range
  | slot_occupied
  | conflict
deriving DecidableEq, Repr

/-- Result of an `insert` call: a thrown error (with the bus state at the
throw), a successful insertion, or an out-of-bounds slot-array access
(undefined behavior in the C++). -/
inductive insert_result where
  | threw (e : bus_error) (after : bus)
  | ok (after : bus)
  | oob
deriving DecidableEq, Repr

/-- Insert a card into a slot on the bus. The checks are in source order:
null card, `slot > MAX_BUS_CARDS`, occupied slot (an access to
`cards[slot]`, out of bounds when `slot = MAX_BUS_CARDS`), conflict; then
the slot and its `ignore_conflicts` bit are written. -/
def bus.insert (b : bus) (c : Option cardv) (slot : Nat) (allow_conflict : Bool) :
    insert_result :=
  match c with
  | none => insert_result.threw bus_error.null_card b
  | some card =>
    if slot > MAX_BUS_CARDS then insert_result.threw bus_error.slot_out_of_range b
    else
      match b.cards.get? slot with
      | none => insert_result.oob
      | some s =>
        if s.isSome then insert_result.threw bus_error.slot_occupied b
        else if !allow_conflict && b.test_for_bus_conflict card then
          insert_result.threw bus_error.conflict b
        else insert_result.ok
          { b with cards := b.cards.set slot (some card),
                   ignore_conflicts := b.ignore_conflicts.set slot allow_conflict }

/-- Reads a byte from the first matching card in slot order, threading the
(possibly updated) slots; the outer `none` means no card matched, the
inner `none` an undefined in-card read. -/
def read_slots (slots : List (Option cardv)) (adr : Nat) (ior : Bool) :
    Option (Option Nat) × List (Option cardv) :=
  match slots with
  | [] => (none, [])
  | s :: rest =>
    match s with
    | some cd =>
      if cd.in_range adr && (ior == cd.is_io) then
        match cd.read adr with
        | some (b, cd2) => (some (some b), some cd2 :: rest)
        | none => (some none, s :: rest)
      else
        let (r, rest2) := read_slots rest adr ior
        (r, s :: rest2)
    | none =>
      let (r, rest2) := read_slots rest adr ior
      (r, s :: rest2)

/-- Reads a byte from the bus: the first valid card slot in range of the
address with matching IOR wins; `BAD_U8` when none matches. A `none` byte
models the undefined behavior of an out-of-bounds in-card read. -/
def bus.read (b : bus) (adr : Nat) (ior : Bool) : Option Nat × bus :=
  match read_slots b.cards adr ior with
  | (none, cs) => (some BAD_U8, { b with cards := cs })
  | (some r, cs) => (r, { b with cards := cs })

/-- Writes a byte to the bus: all cards in range of the address with
matching IOW are written, in slot order. -/
def bus.write (b : bus) (adr byte : Nat) (iow : Bool) : bus :=
  { b with cards := b.cards.map (fun s =>
      match s with
      | some cd =>
        if cd.in_range adr && (iow == cd.is_io) then some (cd.write adr byte) else s
      | none => s) }

/-- Writes a byte to the bus without considering write lock
(`write_force`). -/
def bus.write_force (b : bus) (adr byte : Nat) (iow : Bool) : bus :=
  { b with cards := b.cards.map (fun s =>
      match s with
      | some cd =>
        if cd.in_range adr && (iow == cd.is_io) then some (cd.write_force adr byte) else s
      | none => s) }

/-! ### CPU interpreter, from src/core/cpu/cpu.hpp

The class is a template over `bus_iface`; the two instantiations used by
the source are the real `bus&` and a plain 65536-byte array. -/

/-- The operations the `bus_iface` template parameter provides to the CPU:
indexed reads and writes (memory accesses) and, on the real bus only, port
reads and writes. `is_bus` plays the role of
`std::is_same_v<bus_iface, bus&>`. -/
structure bus_iface (μ : Type) where
  is_bus : Bool
  read : μ → Nat → Nat × μ
  write : μ → Nat → Nat → μ
  read_io : μ → Nat → Nat × μ
  write_io : μ → Nat → Nat → μ

/-- The `cpu<std::array<u8, 65536>>` instantiation: the address space is a
plain byte store. Port I/O throws on this instantiation in the source and
is modelled as inert here (no theorem exercises it). -/
def array_iface : bus_iface (Nat → Nat) :=
  { is_bus := false,
    read := fun m adr => (m (adr &&& 0xFFFF) &&& 0xFF, m),
    write := fun m adr v => fun x => if x = (adr &&& 0xFFFF) then v &&& 0xFF else m x,
    read_io := fun m _ => (0, m),
    write_io := fun m _ _ => m }

/-- The `cpu<bus&>` instantiation: accesses route through the card bus.
An undefined in-card read (the `none` byte) has no defined value in the
C++ either; it is squashed to 0 so the interface stays total. -/
def cardbus_iface : bus_iface bus :=
  { is_bus := true,
    read := fun b adr =>
      match bus.read b adr false with
      | (some v, b2) => (v, b2)
      | (none, b2) => (0, b2),
    write := fun b adr v => bus.write b adr v false,
    read_io := fun b adr =>
      match bus.read b adr true with
      | (some v, b2) => (v, b2)
      | (none, b2) => (0, b2),
    write_io := fun b adr v => bus.write b adr v true }

/-- Represents the CPU of the emulator (`class cpu`): architectural state,
the bound address space, the status booleans, and the interrupt-operand
buffer `u8 ext_op[2]` with its index and the fetch-redirect flag
(`fetch_ptr == &cpu::fetch_ext`). -/
structure cpu (μ : Type) where
  state : cpu_state
  cardbus : μ
  just_booted : Bool
  halted : Bool
  do_handle_bdos : Bool
  interrupts_enabled : Bool
  ext_op0 : Nat
  ext_op1 : Nat
  ext_op_idx : Bool
  fetch_ext_on : Bool
deriving DecidableEq

variable {μ : Type}

/-- The `cpu` constructor: initial state, bound address space, flags as in
the initializer list. `ext_op` is uninitialized in the source; it is given
the value 0 here (it is never read before being set). -/
def cpu.mk_new (m : μ) : cpu μ :=
  { state := cpu_state.init, cardbus := m, just_booted := true, halted := false,
    do_handle_bdos := false, interrupts_enabled := true,
    ext_op0 := 0, ext_op1 := 0, ext_op_idx := false, fetch_ext_on := false }

/-- Shortcut for `state.get_register8`. -/
def cpu.get8 (c : cpu μ) (reg : Nat) : Nat := c.state.get_register8 reg

/-- Shortcut for `state.set_register8`. -/
def cpu.set8 (c : cpu μ) (reg v : Nat) : cpu μ :=
  { c with state := c.state.set_register8 reg v }

/-- Shortcut for `state.get_register16`. -/
def cpu.get16 (c : cpu μ) (pair : Nat) : Nat := c.state.get_register16 pair

/-- Shortcut for `state.set_register16`. -/
def cpu.set16 (c : cpu μ) (pair v : Nat) : cpu μ :=
  { c with state := c.state.set_register16 pair v }

/-- Shortcut for the carry getter `state.flgC()`. -/
def cpu.flgC (c : cpu μ) : Bool := c.state.flgC

/-- Shortcut for the carry setter `state.flgC(bool)`. -/
def cpu.flgC_set (c : cpu μ) (cond : Bool) : cpu μ :=
  { c with state := c.state.flgC_set cond }

/-- Shortcut for the auxiliary-carry getter `state.flgAC()`. -/
def cpu.flgAC (c : cpu μ) : Bool := c.state.flgAC

/-- Shortcut for the auxiliary-carry setter `state.flgAC(bool)`. -/
def cpu.flgAC_set (c : cpu μ) (cond : Bool) : cpu μ :=
  { c with state := c.state.flgAC_set cond }

/-- Shortcut for `state.set_Z_S_P_flags`. -/
def cpu.zsp (c : cpu μ) (v : Nat) : cpu μ :=
  { c with state := c.state.set_Z_S_P_flags v }

/-- A `cardbus[adr]` read; the subscript takes a `u16`. -/
def cpu.mem_read (I : bus_iface μ) (c : cpu μ) (adr : Nat) : Nat × cpu μ :=
  let r := I.read c.cardbus (adr &&& 0xFFFF)
  (r.1, { c with cardbus := r.2 })

/-- A `cardbus[adr] = byte` write; the subscript takes a `u16` and the
byte a `u8`. -/
def cpu.mem_write (I : bus_iface μ) (c : cpu μ) (adr byte : Nat) : cpu μ :=
  { c with cardbus := I.write c.cardbus (adr &&& 0xFFFF) (byte &&& 0xFF) }

/-- The default fetch: read `cardbus[PC]`, incrementing `PC`. -/
def cpu.fetch_default (I : bus_iface μ) (c : cpu μ) : Nat × cpu μ :=
  let r := c.state.get_then_inc_register16 cpu_registers16.PC
  cpu.mem_read I { c with state := r.2 } r.1

/-- The external fetch: return `ext_op[idx]` and toggle the index. -/
def cpu.fetch_ext (c : cpu μ) : Nat × cpu μ :=
  let idx := c.ext_op_idx
  let c := { c with ext_op_idx := !c.ext_op_idx }
  (if idx then c.ext_op1 else c.ext_op0, c)

/-- Point the fetch members at the external or default source
(`set_fetch_ext`); on a non-bus interface enabling the external source
throws in the C++ (never exercised here) and disabling is a no-op. -/
def cpu.set_fetch_ext (I : bus_iface μ) (c : cpu μ) (use_ext : Bool) : cpu μ :=
  if I.is_bus then { c with fetch_ext_on := use_ext } else c

/-- One operand fetch: a non-bus interface always uses the default fetch,
the bus interface goes through the current fetch pointer. -/
def cpu.fetch (I : bus_iface μ) (c : cpu μ) : Nat × cpu μ :=
  if I.is_bus && c.fetch_ext_on then cpu.fetch_ext c else cpu.fetch_default I c

/-- Two operand fetches, little-endian (`fetch2`). -/
def cpu.fetch2 (I : bus_iface μ) (c : cpu μ) : Nat × cpu μ :=
  let lo := cpu.fetch I c
  let hi := cpu.fetch I lo.2
  ((hi.1 <<< 8) ||| lo.1, hi.2)

/-! Opcode implementations, in source order. -/

/-- `NOP`. -/
def cpu.NOP (c : cpu μ) : cpu μ := c

/-- `LXI rp, d16`. -/
def cpu.LXI (I : bus_iface μ) (c : cpu μ) (pair : Nat) : cpu μ :=
  let r := cpu.fetch2 I c
  r.2.set16 pair r.1

/-- `STAX rp`. -/
def cpu.STAX (I : bus_iface μ) (c : cpu μ) (pair : Nat) : cpu μ :=
  cpu.mem_write I c (c.get16 pair) (c.get8 cpu_registers8.A)

/-- `INX rp`. -/
def cpu.INX (c : cpu μ) (pair : Nat) : cpu μ :=
  { c with state := c.state.inc_register16 pair }

/-- `INR M`: `++cardbus[HL]` reads, writes the incremented byte, and reads
back (the proxy re-reads for MMIO); AC from `(value ^ (value - 1)) & 0x10`
at byte width. -/
def cpu.INR_M (I : bus_iface μ) (c : cpu μ) : cpu μ :=
  let hl := c.get16 cpu_registers16.HL
  let r0 := cpu.mem_read I c hl
  let c := cpu.mem_write I r0.2 hl (r0.1 + 1)
  let r1 := cpu.mem_read I c hl
  let value := r1.1
  let c := r1.2.flgAC_set (((value ^^^ ((value + 255) % 256)) &&& 0x10) != 0)
  c.zsp value

/-- `INR r`: increment, AC from `(value ^ (value - 1)) & 0x10` at byte
width, Z/S/P from the result; C untouched. -/
def cpu.INR (I : bus_iface μ) (c : cpu μ) (reg : Nat) : cpu μ :=
  if is_memref reg then cpu.INR_M I c
  else
    let c := { c with state := c.state.inc_register8 reg }
    let value := c.get8 reg
    let c := c.flgAC_set (((value ^^^ ((value + 255) % 256)) &&& 0x10) != 0)
    c.zsp value

/-- `DCR M`: `--cardbus[HL]` reads, writes the decremented byte, and reads
back; AC from `~(value ^ (value + 1)) & 0x10` on the new value. -/
def cpu.DCR_M (I : bus_iface μ) (c : cpu μ) : cpu μ :=
  let hl := c.get16 cpu_registers16.HL
  let r0 := cpu.mem_read I c hl
  let c := cpu.mem_write I r0.2 hl (r0.1 + 255)
  let r1 := cpu.mem_read I c hl
  let value := r1.1
  let c := r1.2.flgAC_set (((value ^^^ (value + 1)) &&& 0x10) == 0)
  c.zsp value

/-- `DCR r`: decrement (`--value` at byte width), AC from
`~(value ^ (value + 1)) & 0x10` on the new value, Z/S/P from the result;
C untouched. -/
def cpu.DCR (I : bus_iface μ) (c : cpu μ) (reg : Nat) : cpu μ :=
  if is_memref reg then cpu.DCR_M I c
  else
    let value := (c.get8 reg + 255) % 256
    let c := c.set8 reg value
    let c := c.flgAC_set (((value ^^^ (value + 1)) &&& 0x10) == 0)
    c.zsp value

/-- `MVI M, d8`. -/
def cpu.MVI_M (I : bus_iface μ) (c : cpu μ) : cpu μ :=
  let r := cpu.fetch I c
  cpu.mem_write I r.2 (r.2.get16 cpu_registers16.HL) r.1

/-- `MVI r, d8`. -/
def cpu.MVI (I : bus_iface μ) (c : cpu μ) (reg : Nat) : cpu μ :=
  if is_memref reg then cpu.MVI_M I c
  else
    let r := cpu.fetch I c
    r.2.set8 reg r.1

/-- `DAD rp`: 32-bit sum of `HL` and the pair; C iff the result exceeds
16 bits. -/
def cpu.DAD (c : cpu μ) (pair : Nat) : cpu μ :=
  let hl := c.get16 cpu_registers16.HL
  let pval := c.get16 pair
  let result := hl + pval
  let c := c.flgC_set ((result &&& 0xFFFF0000) != 0)
  c.set16 cpu_registers16.HL result

/-- `LDAX rp`. -/
def cpu.LDAX (I : bus_iface μ) (c : cpu μ) (pair : Nat) : cpu μ :=
  let r := cpu.mem_read I c (c.get16 pair)
  r.2.set8 cpu_registers8.A r.1

/-- `DCX rp` (`- 1` at `u16` width). -/
def cpu.DCX (c : cpu μ) (pair : Nat) : cpu μ :=
  c.set16 pair (c.get16 pair + 65535)

/-- `RLC`. -/
def cpu.RLC (c : cpu μ) : cpu μ :=
  let a := c.get8 cpu_registers8.A
  let c := c.set8 cpu_registers8.A ((a <<< 1) ||| (a >>> 7))
  c.flgC_set ((a &&& 0x80) != 0)

/-- `RRC`. -/
def cpu.RRC (c : cpu μ) : cpu μ :=
  let a := c.get8 cpu_registers8.A
  let c := c.set8 cpu_registers8.A ((a >>> 1) ||| (a <<< 7))
  c.flgC_set ((a &&& 0x01) != 0)

/-- `RAL`. -/
def cpu.RAL (c : cpu μ) : cpu μ :=
  let a := c.get8 cpu_registers8.A
  let c := c.set8 cpu_registers8.A ((a <<< 1) ||| (if c.flgC then 1 else 0))
  c.flgC_set ((a &&& 0x80) != 0)

/-- `RAR`. -/
def cpu.RAR (c : cpu μ) : cpu μ :=
  let a := c.get8 cpu_registers8.A
  let c := c.set8 cpu_registers8.A ((a >>> 1) ||| ((if c.flgC then 1 else 0) <<< 7))
  c.flgC_set ((a &&& 0x01) != 0)

/-- `SHLD a16`. -/
def cpu.SHLD (I : bus_iface μ) (c : cpu μ) : cpu μ :=
  let r := cpu.fetch2 I c
  let adr := r.1
  let c := cpu.mem_write I r.2 adr (r.2.get8 cpu_registers8.L)
  cpu.mem_write I c (adr + 1) (c.get8 cpu_registers8.H)

/-- `DAA`: the standard pair of conditional additions at `u16` width; AC
from the bit-4 change, C from bit 8. -/
def cpu.DAA (c : cpu μ) : cpu μ :=
  let a0 := c.get8 cpu_registers8.A
  let a1 := a0 + (if decide (0x09 < (a0 &&& 0x0F)) || c.flgAC then 0x06 else 0)
  let a2 := a1 + (if decide (0x90 < (a1 &&& 0xF0)) || c.flgC then 0x60 else 0)
  let c := c.flgAC_set (((a2 ^^^ a0) &&& 0x10) != 0)
  let c := c.flgC_set ((a2 &&& 0x100) != 0)
  let c := c.set8 cpu_registers8.A a2
  c.zsp a2

/-- `LHLD a16`. -/
def cpu.LHLD (I : bus_iface μ) (c : cpu μ) : cpu μ :=
  let r := cpu.fetch2 I c
  let adr := r.1
  let l := cpu.mem_read I r.2 adr
  let c := l.2.set8 cpu_registers8.L l.1
  let h := cpu.mem_read I c (adr + 1)
  h.2.set8 cpu_registers8.H h.1

/-- `CMA` (`~A` at byte width). -/
def cpu.CMA (c : cpu μ) : cpu μ :=
  c.set8 cpu_registers8.A (c.get8 cpu_registers8.A ^^^ 0xFF)

/-- `STA a16`. -/
def cpu.STA (I : bus_iface μ) (c : cpu μ) : cpu μ :=
  let r := cpu.fetch2 I c
  cpu.mem_write I r.2 r.1 (r.2.get8 cpu_registers8.A)

/-- `STC`. -/
def cpu.STC (c : cpu μ) : cpu μ := c.flgC_set true

/-- `LDA a16`. -/
def cpu.LDA (I : bus_iface μ) (c : cpu μ) : cpu μ :=
  let r := cpu.fetch2 I c
  let v := cpu.mem_read I r.2 r.1
  v.2.set8 cpu_registers8.A v.1

/-- `CMC`. -/
def cpu.CMC (c : cpu μ) : cpu μ := c.flgC_set (!c.flgC)

/-- `MOV dst, src` with the memory-operand variants folded in. -/
def cpu.MOV (I : bus_iface μ) (c : cpu μ) (dst src : Nat) : cpu μ :=
  if is_memref src then
    let r := cpu.mem_read I c (c.get16 cpu_registers16.HL)
    r.2.set8 dst r.1
  else if is_memref dst then
    cpu.mem_write I c (c.get16 cpu_registers16.HL) (c.get8 src)
  else c.set8 dst (c.get8 src)

/-- `HLT`. -/
def cpu.HLT (c : cpu μ) : cpu μ := { c with halted := true }

/-- The common `_ALU(src, alu, is_immediate)` worker: `u16 a`, the operand
from immediate, memory or register, then the 8 ALU sub-operations with
their flag updates (the impossible sub-code throws in the source; it is
inert here), the shared C and Z/S/P update, and the accumulator writeback
for everything except `CMP`. -/
def cpu.ALU_work (I : bus_iface μ) (c : cpu μ) (src alu : Nat) (is_immediate : Bool) :
    cpu μ :=
  let a := c.get8 cpu_registers8.A
  let opr :=
    if is_immediate then cpu.fetch I c
    else if is_memref src then cpu.mem_read I c (c.get16 cpu_registers16.HL)
    else (c.get8 src, c)
  let withv := opr.1
  let c := opr.2
  let step : Option (Nat × cpu μ) :=
    match alu with
    | 0b000 | 0b001 =>
      let cy := if alu == 0b001 && c.flgC then 1 else 0
      let result := a + withv + cy
      some (result, c.flgAC_set (decide (0x0F < (a &&& 0x0F) + (withv &&& 0x0F) + cy)))
    | 0b010 | 0b011 =>
      let cy := if alu == 0b011 && c.flgC then 1 else 0
      let result := ((a + 0x10000) - withv - cy) &&& 0xFFFF
      some (result, c.flgAC_set (decide ((withv &&& 0x0F) ≤ (a &&& 0x0F))))
    | 0b100 =>
      some (a &&& withv, c.flgAC_set (((a ||| withv) &&& 0x08) != 0))
    | 0b101 | 0b110 =>
      let result := if alu == 0b101 then a ^^^ withv else a ||| withv
      some (result, c.flgAC_set false)
    | 0b111 =>
      let result := ((a + 0x10000) - withv) &&& 0xFFFF
      let c := c.flgAC_set (decide ((withv &&& 0x0F) ≤ (a &&& 0x0F)))
      let c := c.flgC_set ((result &&& 0x100) != 0)
      some (result, c.zsp result)
    | _ => none
  match step with
  | none => c
  | some (result, c) =>
    let c := c.flgC_set ((result &&& 0x100) != 0)
    let c := c.zsp result
    if alu != 0b111 then c.set8 cpu_registers8.A result else c

/-- `ALU(src, alu)` (register or memory operand). -/
def cpu.ALU (I : bus_iface μ) (c : cpu μ) (src alu : Nat) : cpu μ :=
  cpu.ALU_work I c src alu false

/-- `ALU_IMM(alu)` (immediate operand; the register selector is unused). -/
def cpu.ALU_IMM (I : bus_iface μ) (c : cpu μ) (alu : Nat) : cpu μ :=
  cpu.ALU_work I c cpu_registers8.A alu true

/-- `resolve_flag_cond(cc)`. -/
def cpu.resolve_flag_cond (c : cpu μ) (cc : Nat) : Bool :=
  match cc with
  | 0b000 => !c.state.get_flag cpu_flags.Z
  | 0b001 => c.state.get_flag cpu_flags.Z
  | 0b010 => !c.state.get_flag cpu_flags.C
  | 0b011 => c.state.get_flag cpu_flags.C
  | 0b100 => !c.state.get_flag cpu_flags.P
  | 0b101 => c.state.get_flag cpu_flags.P
  | 0b110 => !c.state.get_flag cpu_flags.S
  | 0b111 => c.state.get_flag cpu_flags.S
  | _ => false

/-- `POP rp` (`SP` in the encoding is remapped to `AF`). -/
def cpu.POP (I : bus_iface μ) (c : cpu μ) (pair : Nat) : cpu μ :=
  let pair := if pair == cpu_registers16.SP then cpu_registers16.AF else pair
  let lo := cpu.mem_read I c (c.get16 cpu_registers16.SP)
  let hi := cpu.mem_read I lo.2 (lo.2.get16 cpu_registers16.SP + 1)
  let c := hi.2.set16 pair ((hi.1 <<< 8) ||| lo.1)
  c.set16 cpu_registers16.SP (c.get16 cpu_registers16.SP + 2)

/-- `RET` (`RETURN` in the source). -/
def cpu.RETURN (I : bus_iface μ) (c : cpu μ) : cpu μ :=
  cpu.POP I c cpu_registers16.PC

/-- `Rcc` (`RETURN_ON`). -/
def cpu.RETURN_ON (I : bus_iface μ) (c : cpu μ) (cc : Nat) : cpu μ :=
  if c.resolve_flag_cond cc then cpu.RETURN I c else c

/-- `JMP a16`. -/
def cpu.JMP (I : bus_iface μ) (c : cpu μ) : cpu μ :=
  let r := cpu.fetch2 I c
  r.2.set16 cpu_registers16.PC r.1

/-- `Jcc a16` (`JUMP_ON`; a not-taken jump still consumes the operands). -/
def cpu.JUMP_ON (I : bus_iface μ) (c : cpu μ) (cc : Nat) : cpu μ :=
  if c.resolve_flag_cond cc then cpu.JMP I c
  else (cpu.fetch2 I c).2

/-- `PUSH rp` (`SP` in the encoding is remapped to `AF`): `SP` moves down
by two, then the low and high bytes are stored at `[SP]` and `[SP+1]`. -/
def cpu.PUSH (I : bus_iface μ) (c : cpu μ) (pair : Nat) : cpu μ :=
  let pair := if pair == cpu_registers16.SP then cpu_registers16.AF else pair
  let c := c.set16 cpu_registers16.SP (c.get16 cpu_registers16.SP + 65534)
  let c := cpu.mem_write I c (c.get16 cpu_registers16.SP) (c.get16 pair &&& 0xFF)
  cpu.mem_write I c (c.get16 cpu_registers16.SP + 1) (c.get16 pair >>> 8)

/-- `CALL a16`. -/
def cpu.CALL (I : bus_iface μ) (c : cpu μ) : cpu μ :=
  let r := cpu.fetch2 I c
  let c := cpu.PUSH I r.2 cpu_registers16.PC
  c.set16 cpu_registers16.PC r.1

/-- `Ccc a16` (`CALL_ON`; a not-taken call still consumes the operands). -/
def cpu.CALL_ON (I : bus_iface μ) (c : cpu μ) (cc : Nat) : cpu μ :=
  if c.resolve_flag_cond cc then cpu.CALL I c
  else (cpu.fetch2 I c).2

/-- `RST n`. -/
def cpu.RST (I : bus_iface μ) (c : cpu μ) (n : Nat) : cpu μ :=
  let c := cpu.PUSH I c cpu_registers16.PC
  c.set16 cpu_registers16.PC (n * 8)

/-- `OUT port`: the port byte is duplicated onto both address-bus halves;
throws on a non-bus interface. -/
def cpu.OUT (I : bus_iface μ) (c : cpu μ) : cpu μ :=
  if !I.is_bus then c
  else
    let r := cpu.fetch I c
    let port := r.1 ||| (r.1 <<< 8)
    { r.2 with cardbus := I.write_io r.2.cardbus (port &&& 0xFFFF) (r.2.get8 cpu_registers8.A &&& 0xFF) }

/-- `IN port`: as `OUT`, reading into `A`. -/
def cpu.IN (I : bus_iface μ) (c : cpu μ) : cpu μ :=
  if !I.is_bus then c
  else
    let r := cpu.fetch I c
    let port := r.1 ||| (r.1 <<< 8)
    let v := I.read_io r.2.cardbus (port &&& 0xFFFF)
    cpu.set8 { r.2 with cardbus := v.2 } cpu_registers8.A v.1

/-- `XTHL`. -/
def cpu.XTHL (I : bus_iface μ) (c : cpu μ) : cpu μ :=
  let lo := cpu.mem_read I c (c.get16 cpu_registers16.SP)
  let hi := cpu.mem_read I lo.2 (lo.2.get16 cpu_registers16.SP + 1)
  let hl := hi.2.get16 cpu_registers16.HL
  let c := hi.2.set16 cpu_registers16.HL ((hi.1 <<< 8) ||| lo.1)
  let c := cpu.mem_write I c (c.get16 cpu_registers16.SP) (hl &&& 0xFF)
  cpu.mem_write I c (c.get16 cpu_registers16.SP + 1) (hl >>> 8)

/-- `PCHL`. -/
def cpu.PCHL (c : cpu μ) : cpu μ :=
  c.set16 cpu_registers16.PC (c.get16 cpu_registers16.HL)

/-- `XCHG`. -/
def cpu.XCHG (c : cpu μ) : cpu μ :=
  let de := c.get16 cpu_registers16.DE
  let c := c.set16 cpu_registers16.DE (c.get16 cpu_registers16.HL)
  c.set16 cpu_registers16.HL de

/-- `DI`. -/
def cpu.DI (c : cpu μ) : cpu μ := { c with interrupts_enabled := false }

/-- `SPHL`. -/
def cpu.SPHL (c : cpu μ) : cpu μ :=
  c.set16 cpu_registers16.SP (c.get16 cpu_registers16.HL)

/-- `EI`. -/
def cpu.EI (c : cpu μ) : cpu μ := { c with interrupts_enabled := true }

/-- Executes a single opcode: the `execute(u8)` jump table. The case lists
of the source switch are written as bit-pattern tests (the source comments
each group with its pattern, for example `..RP....`); with tracing off the
default case is a no-op. -/
def cpu.execute (I : bus_iface μ) (c : cpu μ) (opcode : Nat) : cpu μ :=
  let opcode := opcode &&& 0xFF
  let pair_sel := (((opcode &&& 0b00110000) >>> 4) &&& 0b11) + 1
  let dst_sel := cpu_reg8_decode.getD ((opcode >>> 3) &&& 0b111) 0
  let src_sel := cpu_reg8_decode.getD (opcode &&& 0b111) 0
  if opcode == 0b00000000 then cpu.NOP c
  else if (opcode &&& 0b11001111) == 0b00000001 then cpu.LXI I c pair_sel
  else if (opcode &&& 0b11101111) == 0b00000010 then cpu.STAX I c pair_sel
  else if (opcode &&& 0b11001111) == 0b00000011 then cpu.INX c pair_sel
  else if (opcode &&& 0b11000111) == 0b00000100 then cpu.INR I c dst_sel
  else if (opcode &&& 0b11000111) == 0b00000101 then cpu.DCR I c dst_sel
  else if (opcode &&& 0b11000111) == 0b00000110 then cpu.MVI I c dst_sel
  else if (opcode &&& 0b11001111) == 0b00001001 then cpu.DAD c pair_sel
  else if (opcode &&& 0b11101111) == 0b00001010 then cpu.LDAX I c pair_sel
  else if (opcode &&& 0b11001111) == 0b00001011 then cpu.DCX c pair_sel
  else if opcode == 0b00000111 then cpu.RLC c
  else if opcode == 0b00001111 then cpu.RRC c
  else if opcode == 0b00010111 then cpu.RAL c
  else if opcode == 0b00011111 then cpu.RAR c
  else if opcode == 0b00100010 then cpu.SHLD I c
  else if opcode == 0b00100111 then cpu.DAA c
  else if opcode == 0b00101010 then cpu.LHLD I c
  else if opcode == 0b00101111 then cpu.CMA c
  else if opcode == 0b00110010 then cpu.STA I c
  else if opcode == 0b00110111 then cpu.STC c
  else if opcode == 0b00111010 then cpu.LDA I c
  else if opcode == 0b00111111 then cpu.CMC c
  else if opcode == 0b01110110 then cpu.HLT c
  else if 0b01000000 ≤ opcode && opcode ≤ 0b01111111 then cpu.MOV I c dst_sel src_sel
  else if 0b10000000 ≤ opcode && opcode ≤ 0b10111111 then
    cpu.ALU I c src_sel ((opcode >>> 3) &&& 0b111)
  else if (opcode &&& 0b11000111) == 0b11000000 then
    cpu.RETURN_ON I c ((opcode >>> 3) &&& 0b111)
  else if (opcode &&& 0b11001111) == 0b11000001 then cpu.POP I c pair_sel
  else if (opcode &&& 0b11000111) == 0b11000010 then
    cpu.JUMP_ON I c ((opcode >>> 3) &&& 0b111)
  else if opcode == 0b11000011 then cpu.JMP I c
  else if (opcode &&& 0b11000111) == 0b11000100 then
    cpu.CALL_ON I c ((opcode &&& 0b00111000) >>> 3)
  else if (opcode &&& 0b11001111) == 0b11000101 then cpu.PUSH I c pair_sel
  else if (opcode &&& 0b11000111) == 0b11000110 then
    cpu.ALU_IMM I c ((opcode >>> 3) &&& 0b111)
  else if (opcode &&& 0b11000111) == 0b11000111 then
    cpu.RST I c ((opcode >>> 3) &&& 0b111)
  else if opcode == 0b11001001 then cpu.RETURN I c
  else if opcode == 0b11001101 then cpu.CALL I c
  else if opcode == 0b11010011 then cpu.OUT I c
  else if opcode == 0b11011011 then cpu.IN I c
  else if opcode == 0b11100011 then cpu.XTHL I c
  else if opcode == 0b11101001 then cpu.PCHL c
  else if opcode == 0b11101011 then cpu.XCHG c
  else if opcode == 0b11110011 then cpu.DI c
  else if opcode == 0b11111001 then cpu.SPHL c
  else if opcode == 0b11111011 then cpu.EI c
  else c

/-- Executes a single opcode with one or two operands
(`execute(u8, u8, u8)`): load the external operand buffer, redirect the
fetch source to it, execute, restore the default fetch source. -/
def cpu.execute_ops (I : bus_iface μ) (c : cpu μ) (opcode operand1 operand2 : Nat) :
    cpu μ :=
  let c := { c with ext_op0 := operand1 &&& 0xFF, ext_op1 := operand2 &&& 0xFF }
  let c := cpu.set_fetch_ext I c true
  let c := cpu.execute I c opcode
  cpu.set_fetch_ext I c false

/-- Call an interrupt (`interrupt(std::array<u8, 3>)`): if interrupts are
enabled, disable them, push `PC`, and execute the instruction with its
operands drawn from the 3-byte buffer. -/
def cpu.interrupt (I : bus_iface μ) (c : cpu μ) (inst : Nat × Nat × Nat) : cpu μ :=
  if !c.interrupts_enabled then c
  else
    let c := { c with interrupts_enabled := false }
    let c := cpu.PUSH I c cpu_registers16.PC
    cpu.execute_ops I c inst.1 inst.2.1 inst.2.2

/-- Reset the CPU (`clear()`): fresh architectural state, `just_booted`
raised, `halted` dropped. -/
def cpu.clear (c : cpu μ) : cpu μ :=
  { c with state := cpu_state.init, just_booted := true, halted := false }

/-! ### Bitwise toolbox -/

theorem tb_255 (i : Nat) : Nat.testBit 0xFF i = decide (i < 8) := by
  have h : (0xFF : Nat) = 2 ^ 8 - 1 := by norm_num
  rw [h, Nat.testBit_two_pow_sub_one]

theorem tb_65535 (i : Nat) : Nat.testBit 0xFFFF i = decide (i < 16) := by
  have h : (0xFFFF : Nat) = 2 ^ 16 - 1 := by norm_num
  rw [h, Nat.testBit_two_pow_sub_one]

theorem tb_ff00 (i : Nat) : Nat.testBit 0xFF00 i = (decide (8 ≤ i) && decide (i < 16)) := by
  have h : (0xFF00 : Nat) = (2 ^ 8 - 1) <<< 8 := by decide
  rw [h, Nat.testBit_shiftLeft, Nat.testBit_two_pow_sub_one]
  by_cases h8 : 8 ≤ i <;> by_cases h16 : i < 16 <;> simp [h8, h16] <;> omega

theorem tb_small (x i : Nat) (hx : x < 256) (hi : 8 ≤ i) : Nat.testBit x i = false := by
  apply Nat.testBit_lt_two_pow
  calc x < 256 := hx
  _ = 2 ^ 8 := by norm_num
  _ ≤ 2 ^ i := Nat.pow_le_pow_right (by norm_num) hi

/-- Restoring a low byte under a high-byte mask. -/
theorem low_write_read (a x : Nat) (hx : x < 256) : ((a &&& 0xFF00) ||| x) &&& 0xFF = x := by
  apply Nat.eq_of_testBit_eq
  intro i
  simp only [Nat.testBit_and, Nat.testBit_or, tb_255, tb_ff00]
  by_cases hi : i < 8
  · simp [hi]
  · simp [hi, tb_small x i hx (by omega)]

/-- Writing the high byte leaves the low byte. -/
theorem high_write_keeps_low (a x : Nat) :
    ((a &&& 0xFF) ||| (x <<< 8)) &&& 0xFF = a &&& 0xFF := by
  apply Nat.eq_of_testBit_eq
  intro i
  simp only [Nat.testBit_and, Nat.testBit_or, Nat.testBit_shiftLeft, tb_255]
  by_cases hi : i < 8
  · simp [hi]
  · simp [hi]

/-- Reading back a written high byte. -/
theorem high_write_read (a x : Nat) (hx : x < 256) :
    (((a &&& 0xFF) ||| (x <<< 8)) >>> 8) &&& 0xFF = x := by
  apply Nat.eq_of_testBit_eq
  intro i
  simp only [Nat.testBit_and, Nat.testBit_or, Nat.testBit_shiftLeft,
    Nat.testBit_shiftRight, tb_255]
  by_cases hi : i < 8
  · simp [hi]
  · simp [hi, tb_small x i hx (by omega)]

/-- Writing the low byte leaves the high byte. -/
theorem low_write_keeps_high (a x : Nat) (hx : x < 256) :
    (((a &&& 0xFF00) ||| x) >>> 8) &&& 0xFF = (a >>> 8) &&& 0xFF := by
  apply Nat.eq_of_testBit_eq
  intro i
  simp only [Nat.testBit_and, Nat.testBit_or, Nat.testBit_shiftRight, tb_255, tb_ff00]
  by_cases hi : i < 8
  · have h16 : 8 + i < 16 := by omega
    simp [hi, h16, tb_small x (8 + i) hx (by omega)]
  · simp [hi]

/-- A mask below 256 ignores the high byte of a 16-bit composition. -/
theorem or_shift8_and_byte (hi lo m : Nat) (hm : m < 256) :
    ((hi <<< 8) ||| lo) &&& m = lo &&& m := by
  apply Nat.eq_of_testBit_eq
  intro i
  simp only [Nat.testBit_and, Nat.testBit_or, Nat.testBit_shiftLeft]
  by_cases h8 : i < 8
  · have h : ¬ (8 ≤ i) := by omega
    simp [h]
  · simp [h8, tb_small m i hm (by omega)]

theorem and_255_eq_mod (x : Nat) : x &&& 0xFF = x % 256 := by
  have h : (0xFF : Nat) = 2 ^ 8 - 1 := by norm_num
  have h2 : (256 : Nat) = 2 ^ 8 := by norm_num
  rw [h, h2, Nat.and_pow_two_sub_one_eq_mod]

theorem and_65535_eq_mod (x : Nat) : x &&& 0xFFFF = x % 65536 := by
  have h : (0xFFFF : Nat) = 2 ^ 16 - 1 := by norm_num
  have h2 : (65536 : Nat) = 2 ^ 16 := by norm_num
  rw [h, h2, Nat.and_pow_two_sub_one_eq_mod]

theorem and_byte_lt (x : Nat) : x &&& 0xFF < 256 :=
  Nat.lt_succ_of_le (Nat.and_le_right)

theorem and_word_lt (x : Nat) : x &&& 0xFFFF < 65536 :=
  Nat.lt_succ_of_le (Nat.and_le_right)

/-! ### Register-file lemmas -/

theorem get_register8_lt (s : cpu_state) (reg : Nat) : s.get_register8 reg < 256 :=
  and_byte_lt _

theorem get_register16_lt (s : cpu_state) (pair : Nat) : s.get_register16 pair < 65536 :=
  and_word_lt _

/-- Writing `F` through `set_register8` stores the masked byte. -/
theorem get8F_set8F (s : cpu_state) (v : Nat) :
    (s.set_register8 cpu_registers8.F v).get_register8 cpu_registers8.F
      = ((v &&& 0xFF) ||| 0x02) &&& 0xD7 := by
  show ((s.registers.r0 &&& 0xFF00) ||| (((v &&& 0xFF) ||| 0x02) &&& 0xD7)) &&& 0xFF = _
  have hlt : ((v &&& 0xFF) ||| 0x02) &&& 0xD7 < 256 :=
    Nat.lt_succ_of_le (le_trans Nat.and_le_right (by norm_num))
  exact low_write_read _ _ hlt

/-- The 8-bit registers of the decode table other than the memory
pseudo-register. -/
def non_flag_regs : List Nat :=
  [cpu_registers8.A, cpu_registers8.B, cpu_registers8.C, cpu_registers8.D,
   cpu_registers8.E, cpu_registers8.H, cpu_registers8.L]

/-- Writing a non-flag register reads back (at byte width). -/
theorem get8_set8_same (s : cpu_state) (reg v : Nat) (h : reg ∈ non_flag_regs) :
    (s.set_register8 reg v).get_register8 reg = v &&& 0xFF := by
  have hv : v &&& 0xFF < 256 := and_byte_lt v
  simp only [non_flag_regs, cpu_registers8.A, cpu_registers8.B, cpu_registers8.C,
    cpu_registers8.D, cpu_registers8.E, cpu_registers8.H, cpu_registers8.L,
    List.mem_cons, List.not_mem_nil, or_false] at h
  rcases h with rfl | rfl | rfl | rfl | rfl | rfl | rfl
  · exact high_write_read s.registers.r0 _ hv
  · exact high_write_read s.registers.r1 _ hv
  · exact low_write_read s.registers.r1 _ hv
  · exact high_write_read s.registers.r2 _ hv
  · exact low_write_read s.registers.r2 _ hv
  · exact high_write_read s.registers.r3 _ hv
  · exact low_write_read s.registers.r3 _ hv

/-- Writing a non-flag register leaves `F`. -/
theorem get8F_set8_other (s : cpu_state) (reg v : Nat) (h : reg ∈ non_flag_regs) :
    (s.set_register8 reg v).get_register8 cpu_registers8.F
      = s.get_register8 cpu_registers8.F := by
  simp only [non_flag_regs, cpu_registers8.A, cpu_registers8.B, cpu_registers8.C,
    cpu_registers8.D, cpu_registers8.E, cpu_registers8.H, cpu_registers8.L,
    List.mem_cons, List.not_mem_nil, or_false] at h
  rcases h with rfl | rfl | rfl | rfl | rfl | rfl | rfl
  · exact high_write_keeps_low s.registers.r0 _
  · rfl
  · rfl
  · rfl
  · rfl
  · rfl
  · rfl

/-- Writing `F` leaves the non-flag registers. -/
theorem get8_set8F (s : cpu_state) (reg v : Nat) (h : reg ∈ non_flag_regs) :
    (s.set_register8 cpu_registers8.F v).get_register8 reg = s.get_register8 reg := by
  have hlt : ((v &&& 0xFF) ||| 0x02) &&& 0xD7 < 256 :=
    Nat.lt_succ_of_le (le_trans Nat.and_le_right (by norm_num))
  simp only [non_flag_regs, cpu_registers8.A, cpu_registers8.B, cpu_registers8.C,
    cpu_registers8.D, cpu_registers8.E, cpu_registers8.H, cpu_registers8.L,
    List.mem_cons, List.not_mem_nil, or_false] at h
  rcases h with rfl | rfl | rfl | rfl | rfl | rfl | rfl
  · exact low_write_keeps_high s.registers.r0 _ hlt
  · rfl
  · rfl
  · rfl
  · rfl
  · rfl
  · rfl

/-- The five 8080 flags at their bit positions. -/
def flag_list : List Nat :=
  [cpu_flags.C, cpu_flags.P, cpu_flags.AC, cpu_flags.Z, cpu_flags.S]

/-- Byte-level effect of one conditional flag write under the `F` mask. -/
theorem flag_byte_update (b : Bool) :
    ∀ Fb < 256, ∀ f ∈ flag_list, ∀ g ∈ flag_list,
      (((((if b then Fb ||| f else Fb &&& (0xFF ^^^ f)) &&& 0xFF) ||| 0x02) &&& 0xD7)
          &&& g != 0)
        = (if g = f then b else (Fb &&& g != 0)) := by
  cases b <;> decide

/-- Reading one flag after `set_if_flag` of another. -/
theorem get_flag_set_if_flag (s : cpu_state) (f g : Nat) (b : Bool)
    (hf : f ∈ flag_list) (hg : g ∈ flag_list) :
    (s.set_if_flag f b).get_flag g = if g = f then b else s.get_flag g := by
  have hFb := get_register8_lt s cpu_registers8.F
  have key := flag_byte_update b (s.get_register8 cpu_registers8.F) hFb f hf g hg
  cases b with
  | false =>
    show (s.unset_flag f).get_flag g = _
    unfold cpu_state.unset_flag cpu_state.get_flag
    rw [get8F_set8F]
    simpa using key
  | true =>
    show (s.set_flag f).get_flag g = _
    unfold cpu_state.set_flag cpu_state.get_flag
    rw [get8F_set8F]
    simpa using key

/-- `set_if_flag` leaves the non-flag registers. -/
theorem get8_set_if_flag (s : cpu_state) (f : Nat) (b : Bool) (reg : Nat)
    (h : reg ∈ non_flag_regs) :
    (s.set_if_flag f b).get_register8 reg = s.get_register8 reg := by
  unfold cpu_state.set_if_flag cpu_state.set_flag cpu_state.unset_flag
  cases b
  · simpa using get8_set8F s reg _ h
  · simpa using get8_set8F s reg _ h

/-- Reading one flag after `set_Z_S_P_flags`. -/
theorem get_flag_zsp (s : cpu_state) (v g : Nat) (hg : g ∈ flag_list) :
    (s.set_Z_S_P_flags v).get_flag g =
      if g = cpu_flags.P then (bit_count8 (v &&& 0xFF) % 2 == 0)
      else if g = cpu_flags.S then (((v &&& 0xFF) &&& 0x80) != 0)
      else if g = cpu_flags.Z then ((v &&& 0xFF) == 0)
      else s.get_flag g := by
  unfold cpu_state.set_Z_S_P_flags
  rw [get_flag_set_if_flag _ _ _ _ (by decide) hg,
      get_flag_set_if_flag _ _ _ _ (by decide) hg,
      get_flag_set_if_flag _ _ _ _ (by decide) hg]

/-- `set_Z_S_P_flags` leaves the non-flag registers. -/
theorem get8_zsp (s : cpu_state) (v reg : Nat) (h : reg ∈ non_flag_regs) :
    (s.set_Z_S_P_flags v).get_register8 reg = s.get_register8 reg := by
  unfold cpu_state.set_Z_S_P_flags
  rw [get8_set_if_flag _ _ _ _ h, get8_set_if_flag _ _ _ _ h, get8_set_if_flag _ _ _ _ h]

theorem nat_and_or_right (a b c : Nat) : (a ||| b) &&& c = (a &&& c) ||| (b &&& c) := by
  apply Nat.eq_of_testBit_eq
  intro i
  simp only [Nat.testBit_and, Nat.testBit_or]
  cases a.testBit i <;> cases b.testBit i <;> cases c.testBit i <;> rfl

/-- Writing `AF` through `set_register16` stores the masked low byte. -/
theorem get8F_set16AF (s : cpu_state) (w : Nat) :
    (s.set_register16 cpu_registers16.AF w).get_register8 cpu_registers8.F
      = (w &&& 0xD7) ||| 0x02 := by
  show (((w &&& 0xFFFF) ||| 0x02) &&& 0xFFD7) &&& 0xFF = _
  rw [Nat.and_assoc, show (0xFFD7 &&& 0xFF : Nat) = 0xD7 by decide, nat_and_or_right,
      Nat.and_assoc, show (0xFFFF &&& 0xD7 : Nat) = 0xD7 by decide,
      show (0x02 &&& 0xD7 : Nat) = 0x02 by decide]

/-- Flag byte produced by `POP` of the PSW: the byte popped from `[SP]`,
normalized. -/
theorem pop_psw_flag {μ : Type} (I : bus_iface μ) (c : cpu μ) :
    (cpu.POP I c cpu_registers16.SP).state.get_register8 cpu_registers8.F
      = ((cpu.mem_read I c (c.state.get_register16 cpu_registers16.SP)).1 &&& 0xD7)
        ||| 0x02 := by
  unfold cpu.POP
  simp only [cpu.mem_read, cpu.set16, cpu.get16]
  rw [if_pos (by rfl : (cpu_registers16.SP == cpu_registers16.SP) = true)]
  rw [show ∀ (t : cpu_state) x, (t.set_register16 cpu_registers16.SP x).get_register8
      cpu_registers8.F = t.get_register8 cpu_registers8.F from fun t x => rfl]
  rw [get8F_set16AF, or_shift8_and_byte _ _ _ (by norm_num)]

/-! ### Claim theorems -/

/-- C1: every 8-bit value written to `F` — by `set_register8`, by a 16-bit
write to `AF`, or by `POP` of the PSW (the `SP` selector, remapped to
`AF`) — is stored with bits 3 and 5 forced to 0 and bit 1 forced to 1; in
particular `F = 0xFF` reads back as `0xD7`. -/
theorem claim_C1 {μ : Type} (s : cpu_state) (v w : Nat) (I : bus_iface μ) (c : cpu μ)
    (hv : v < 256) :
    (s.set_register8 cpu_registers8.F v).get_register8 cpu_registers8.F
        = (v &&& 0xD7) ||| 0x02
    ∧ (s.set_register16 cpu_registers16.AF w).get_register8 cpu_registers8.F
        = (w &&& 0xD7) ||| 0x02
    ∧ (cpu.POP I c cpu_registers16.SP).state.get_register8 cpu_registers8.F
        = ((cpu.mem_read I c (c.state.get_register16 cpu_registers16.SP)).1 &&& 0xD7)
          ||| 0x02
    ∧ (s.set_register8 cpu_registers8.F 0xFF).get_register8 cpu_registers8.F = 0xD7 := by
  have hbyte : ∀ x < 256, ((x ||| 0x02) &&& 0xD7 : Nat) = (x &&& 0xD7) ||| 0x02 := by decide
  have hmod : v &&& 0xFF = v := by
    rw [and_255_eq_mod]
    exact Nat.mod_eq_of_lt hv
  refine ⟨?_, ?_, ?_, ?_⟩
  · rw [get8F_set8F, hmod, hbyte v hv]
  · exact get8F_set16AF s w
  · exact pop_psw_flag I c
  · rw [get8F_set8F]; decide

/-- Closed witness for C1 at `v = 0xFF`, `w = 0xABCD`, and a concrete CPU
whose memory holds `0x9B` everywhere. -/
theorem claim_C1_witness :
    (0xFF : Nat) < 256
    ∧ ((cpu_state.init.set_register8 cpu_registers8.F 0xFF).get_register8
          cpu_registers8.F = (0xFF &&& 0xD7) ||| 0x02
      ∧ (cpu_state.init.set_register16 cpu_registers16.AF 0xABCD).get_register8
          cpu_registers8.F = (0xABCD &&& 0xD7) ||| 0x02
      ∧ (cpu.POP array_iface (cpu.mk_new (fun _ => 0x9B))
            cpu_registers16.SP).state.get_register8 cpu_registers8.F
          = ((cpu.mem_read array_iface (cpu.mk_new (fun _ => 0x9B))
              ((cpu.mk_new (fun _ => 0x9B) : cpu (Nat → Nat)).state.get_register16
                cpu_registers16.SP)).1 &&& 0xD7) ||| 0x02
      ∧ (cpu_state.init.set_register8 cpu_registers8.F 0xFF).get_register8
          cpu_registers8.F = 0xD7) :=
  ⟨by decide, claim_C1 cpu_state.init 0xFF 0xABCD array_iface
    (cpu.mk_new (fun _ => 0x9B)) (by decide)⟩

/-- Matching, as the spec words it: a card matches `(adr, io)` iff
`card.in_range(adr) && card.is_io() == io`. -/
def card_matches (c : cardv) (adr : Nat) (io : Bool) : Bool :=
  c.in_range adr && (c.is_io == io)

/-- The first card in slot order that matches, as the spec words it. -/
def first_matching_card (slots : List (Option cardv)) (adr : Nat) (io : Bool) :
    Option cardv :=
  slots.findSome? (fun s =>
    match s with
    | some c => if card_matches c adr io then some c else none
    | none => none)

theorem beq_comm_bool (a b : Bool) : (a == b) = (b == a) := by
  cases a <;> cases b <;> rfl

theorem read_slots_first (slots : List (Option cardv)) (adr : Nat) (io : Bool) :
    (read_slots slots adr io).1
      = (first_matching_card slots adr io).map (fun c => (cardv.read c adr).map Prod.fst) := by
  induction slots with
  | nil => rfl
  | cons s rest ih =>
    cases s with
    | none =>
      simp only [read_slots, first_matching_card, List.findSome?_cons]
      exact ih
    | some cd =>
      have hco : (io == cd.is_io) = (cd.is_io == io) := beq_comm_bool _ _
      by_cases hm : (cd.in_range adr && (io == cd.is_io)) = true
      · have hm2 : card_matches cd adr io = true := by
          unfold card_matches
          rw [← hco]
          exact hm
        simp only [read_slots, first_matching_card, List.findSome?_cons, hm, hm2, if_true]
        cases hr : cardv.read cd adr with
        | none => simp [hr]
        | some p => simp [hr]
      · have hm2 : card_matches cd adr io = false := by
          unfold card_matches
          rw [← hco]
          exact Bool.not_eq_true _ ▸ Bool.of_not_eq_true hm
        simp only [read_slots, first_matching_card, List.findSome?_cons, hm, hm2,
          Bool.false_eq_true, if_false]
        simpa [first_matching_card] using ih

/-- C2: a bus read returns the byte of the first card in slot order
matching `(adr, io)` and `BAD_U8 = 0xFF` when none matches; a bus write
delivers the byte to every matching card, slot by slot. -/
theorem claim_C2 (b : bus) (adr byte : Nat) (io : Bool) :
    ((bus.read b adr io).1
      = match first_matching_card b.cards adr io with
        | some c => (cardv.read c adr).map Prod.fst
        | none => some BAD_U8)
    ∧ (bus.write b adr byte io).cards = b.cards.map (fun s =>
        match s with
        | some c => if card_matches c adr io then some (c.write adr byte) else some c
        | none => none) := by
  constructor
  · have key := read_slots_first b.cards adr io
    rcases hrs : read_slots b.cards adr io with ⟨r, cs⟩
    rw [hrs] at key
    cases hf : first_matching_card b.cards adr io with
    | none =>
      rw [hf] at key
      simp only [Option.map] at key
      subst key
      simp [bus.read, hrs]
    | some c =>
      rw [hf] at key
      simp only [Option.map] at key
      subst key
      simp [bus.read, hrs]
      cases c.read adr <;> rfl
  · unfold bus.write
    apply List.map_congr_left
    intro s _
    cases s with
    | none => rfl
    | some cd =>
      show (if (cd.in_range adr && (io == cd.is_io)) = true
            then some (cd.write adr byte) else some cd)
          = (if card_matches cd adr io = true then some (cd.write adr byte) else some cd)
      unfold card_matches
      rw [beq_comm_bool cd.is_io io]

/-- C4: `insert` guards `slot > MAX_BUS_CARDS` instead of `>=`. For every
slot index of at least 19 it throws the out-of-range error, but at the
claimed boundary `slot = 18 = N_SLOTS` the guard passes and the code
indexes the 18-element slot array out of bounds (undefined behavior)
instead of failing with the out-of-range error. -/
theorem claim_C4 (b : bus) (c : cardv) (a : Bool) (slot : Nat)
    (hlen : b.cards.length = MAX_BUS_CARDS) (hs : MAX_BUS_CARDS ≤ slot) :
    (19 ≤ slot →
      bus.insert b (some c) slot a = insert_result.threw bus_error.slot_out_of_range b)
    ∧ (slot = 18 → bus.insert b (some c) slot a = insert_result.oob) := by
  constructor
  · intro h19
    unfold bus.insert
    dsimp only
    rw [if_pos (by unfold MAX_BUS_CARDS; omega)]
  · intro h18
    subst h18
    unfold bus.insert
    dsimp only
    rw [if_neg (by unfold MAX_BUS_CARDS; omega)]
    rw [List.get?_eq_none.mpr (by omega)]

/-- Closed witness for C4 at slots 19 and 18 on the empty bus. -/
theorem claim_C4_witness :
    ((bus.init.cards.length = MAX_BUS_CARDS ∧ MAX_BUS_CARDS ≤ 19)
      ∧ ((19 ≤ 19 → bus.insert bus.init
            (some (cardv.data (data_card.mk_fill 0 16 0 false))) 19 false
              = insert_result.threw bus_error.slot_out_of_range bus.init)
        ∧ (19 = 18 → bus.insert bus.init
            (some (cardv.data (data_card.mk_fill 0 16 0 false))) 19 false
              = insert_result.oob)))
    ∧ ((bus.init.cards.length = MAX_BUS_CARDS ∧ MAX_BUS_CARDS ≤ 18)
      ∧ ((19 ≤ 18 → bus.insert bus.init
            (some (cardv.data (data_card.mk_fill 0 16 0 false))) 18 false
              = insert_result.threw bus_error.slot_out_of_range bus.init)
        ∧ (18 = 18 → bus.insert bus.init
            (some (cardv.data (data_card.mk_fill 0 16 0 false))) 18 false
              = insert_result.oob))) :=
  ⟨⟨⟨by decide, by decide⟩,
    claim_C4 bus.init (cardv.data (data_card.mk_fill 0 16 0 false)) false 19
      (by decide) (by decide)⟩,
   ⟨⟨by decide, by decide⟩,
    claim_C4 bus.init (cardv.data (data_card.mk_fill 0 16 0 false)) false 18
      (by decide) (by decide)⟩⟩

/-- C10: whenever `insert` throws one of its errors, it does so before any
mutation: the bus state carried at the throw is the original one. -/
theorem claim_C10 (b : bus) (c : Option cardv) (slot : Nat) (a : Bool)
    (e : bus_error) (b2 : bus)
    (h : bus.insert b c slot a = insert_result.threw e b2) : b2 = b := by
  unfold bus.insert at h
  rcases c with _ | card
  · cases h
    rfl
  · dsimp only at h
    split at h
    · cases h
      rfl
    · split at h
      · cases h
      · split at h
        · cases h
          rfl
        · split at h
          · cases h
            rfl
          · cases h

/-- A bus whose slot 3 is occupied, for the C10 witness. -/
def occupied_bus : bus :=
  { bus.init with cards :=
      (bus.init.cards.set 3 (some (cardv.data (data_card.mk_fill 0 16 0 false)))) }

/-- Closed witness for C10: inserting into an occupied slot throws with
the bus unchanged. -/
theorem claim_C10_witness :
    (bus.insert occupied_bus
        (some (cardv.data (data_card.mk_fill 0x100 16 0 false))) 3 false
      = insert_result.threw bus_error.slot_occupied occupied_bus)
    ∧ occupied_bus = occupied_bus :=
  ⟨by decide,
   claim_C10 occupied_bus (some (cardv.data (data_card.mk_fill 0x100 16 0 false)))
     3 false bus_error.slot_occupied occupied_bus (by decide)⟩

/-- C5 counterexample: writing `0x03` (master reset) to the control port
leaves `CONTROL = 0x03`, not the claimed reset value `0b10010101`: the
decoded byte is latched raw into `CONTROL` after `reset()` ran. -/
theorem claim_C5_counterexample :
    (((serial_card.mk_new 0x10 19200 []).write 0x10 0x15).write 0x10 0x03).control = 0x03
    ∧ (0x03 : Nat) ≠ 0b10010101 := by decide

/-- C5 (amended): after writing `0x03` to the control port, regardless of
prior state, the registers are in reset state (`STATUS = 0x02`, so
`TDRE = 1`; `TX_DATA = RX_DATA = 0`), `RTS = 1`, `divide_by = 4` with the
endpoint reprogrammed to base/16 (and then configured 7E2 by the word
select field of `0x03`) — but `CONTROL` holds the raw written byte `0x03`
(latched after the reset), not `0b10010101`. -/
theorem claim_C5_amended (c : serial_card) (adr : Nat)
    (h : (adr &&& 0xFF) = c.start_adr) :
    ((c.write adr 0x03).control = 0x03
      ∧ (c.write adr 0x03).status = 0x02
      ∧ (c.write adr 0x03).TDRE = true
      ∧ (c.write adr 0x03).tx_data = 0
      ∧ (c.write adr 0x03).rx_data = 0)
    ∧ (c.write adr 0x03).divide_by = 4
    ∧ (c.write adr 0x03).rts = true
    ∧ (c.write adr 0x03).base_clock = c.base_clock
    ∧ (c.write adr 0x03).serial.events
        = c.serial.events ++ [pty_event.set_baud_rate (c.base_clock >>> 4),
                              pty_event.setup 7 pty_parity.EVEN 2]
    ∧ (c.write adr 0x03).serial.input = c.serial.input := by
  have hcond : ((adr &&& 0xFF) == c.start_adr) = true := by simp [h]
  simp [serial_card.write, hcond, serial_card.reset, serial_card.TDRE,
    serial_card.TDRE_set, serial_card.IRQ_set, pty.set_baud_rate, pty.setup,
    serial_status_flags.TDRE, serial_status_flags.IRQ, List.append_assoc]
  decide

/-- Closed witness for C5 (amended) on a freshly constructed card. -/
theorem claim_C5_amended_witness :
    ((0x10 &&& 0xFF : Nat) = 0x10)
    ∧ ((((serial_card.mk_new 0x10 19200 []).write 0x10 0x03).control = 0x03
        ∧ ((serial_card.mk_new 0x10 19200 []).write 0x10 0x03).status = 0x02
        ∧ ((serial_card.mk_new 0x10 19200 []).write 0x10 0x03).TDRE = true
        ∧ ((serial_card.mk_new 0x10 19200 []).write 0x10 0x03).tx_data = 0
        ∧ ((serial_card.mk_new 0x10 19200 []).write 0x10 0x03).rx_data = 0)
      ∧ ((serial_card.mk_new 0x10 19200 []).write 0x10 0x03).divide_by = 4
      ∧ ((serial_card.mk_new 0x10 19200 []).write 0x10 0x03).rts = true
      ∧ ((serial_card.mk_new 0x10 19200 []).write 0x10 0x03).base_clock
          = (serial_card.mk_new 0x10 19200 []).base_clock
      ∧ ((serial_card.mk_new 0x10 19200 []).write 0x10 0x03).serial.events
          = (serial_card.mk_new 0x10 19200 []).serial.events
            ++ [pty_event.set_baud_rate ((serial_card.mk_new 0x10 19200 []).base_clock >>> 4),
                pty_event.setup 7 pty_parity.EVEN 2]
      ∧ ((serial_card.mk_new 0x10 19200 []).write 0x10 0x03).serial.input
          = (serial_card.mk_new 0x10 19200 []).serial.input) :=
  ⟨by decide, claim_C5_amended (serial_card.mk_new 0x10 19200 []) 0x10 (by decide)⟩

/-- C8: `data_card::clear()` on an unlocked card runs `data.clear()`,
which empties the byte vector instead of zero-filling it: afterwards the
in-range read at offset 0 indexes an empty vector (undefined behavior,
`none`), not `0x00`, while `in_range`/`capacity` still advertise the old
range; a write-locked card is left unchanged. -/
theorem claim_C8 :
    ((data_card.mk_fill 0 1 0x5A false).clear.data = []
      ∧ (data_card.mk_fill 0 1 0x5A false).clear.read 0 = none
      ∧ (data_card.mk_fill 0 1 0x5A false).clear.in_range 0 = true
      ∧ (data_card.mk_fill 0 1 0x5A false).clear.capacity = 1)
    ∧ (data_card.mk_fill 0 1 0x5A true).clear = data_card.mk_fill 0 1 0x5A true := by
  decide

/-- C9 counterexample: a CPU that executed `DI` (opcode 0xF3) and is then
`clear()`ed still has interrupts disabled, so its state differs from the
just-constructed state (which has `interrupts_enabled = true`). -/
theorem claim_C9_counterexample :
    (cpu.clear (cpu.execute array_iface (cpu.mk_new (fun _ => 0)) 0xF3)).interrupts_enabled
      = false
    ∧ (cpu.mk_new (fun _ : Nat => (0 : Nat)) : cpu (Nat → Nat)).interrupts_enabled = true := by
  constructor
  · rfl
  · rfl

/-- C9 (amended): `clear()` restores the register file to the constructed
state (`AF = 0x0002`, all other pairs zero), raises `just_booted` and
drops `halted`, and leaves everything else — in particular
`interrupts_enabled` — exactly as it was before the call. -/
theorem claim_C9_amended {μ : Type} (c : cpu μ) :
    cpu.clear c
        = { c with state := cpu_state.init, just_booted := true, halted := false }
    ∧ cpu_state.init.get_register16 cpu_registers16.AF = 0x0002
    ∧ cpu_state.init.get_register16 cpu_registers16.BC = 0
    ∧ cpu_state.init.get_register16 cpu_registers16.DE = 0
    ∧ cpu_state.init.get_register16 cpu_registers16.HL = 0
    ∧ cpu_state.init.get_register16 cpu_registers16.SP = 0
    ∧ cpu_state.init.get_register16 cpu_registers16.PC = 0
    ∧ cpu_state.init.get_register8 cpu_registers8.F = 0x02 :=
  ⟨rfl, by decide, by decide, by decide, by decide, by decide, by decide, by decide⟩

/-- Reading one flag is unchanged by writes to non-flag registers. -/
theorem get_flag_set8_other (s : cpu_state) (reg v g : Nat) (h : reg ∈ non_flag_regs) :
    (s.set_register8 reg v).get_flag g = s.get_flag g := by
  unfold cpu_state.get_flag
  rw [get8F_set8_other s reg v h]

/-- The DCR auxiliary-carry formula of the source equals the no-borrow
test on the pre-decrement low nibble. -/
theorem dcr_ac_formula :
    ∀ v < 256, (((((v + 255) % 256) ^^^ ((v + 255) % 256 + 1)) &&& 0x10) == 0)
      = decide (v % 16 ≠ 0) := by decide

/-- Decode-table registers are not the memory pseudo-register. -/
theorem nfr_not_memref : ∀ reg ∈ non_flag_regs, is_memref reg = false := by decide

/-- Effect of the flag tail `flgAC_set b` then `set_Z_S_P_flags v` on each
flag and on the non-flag registers. -/
theorem ac_zsp_tail (s : cpu_state) (b : Bool) (v : Nat) :
    ((s.set_if_flag cpu_flags.AC b).set_Z_S_P_flags v).get_flag cpu_flags.C
        = s.get_flag cpu_flags.C
    ∧ ((s.set_if_flag cpu_flags.AC b).set_Z_S_P_flags v).get_flag cpu_flags.AC = b
    ∧ ((s.set_if_flag cpu_flags.AC b).set_Z_S_P_flags v).get_flag cpu_flags.Z
        = ((v &&& 0xFF) == 0)
    ∧ ((s.set_if_flag cpu_flags.AC b).set_Z_S_P_flags v).get_flag cpu_flags.S
        = (((v &&& 0xFF) &&& 0x80) != 0)
    ∧ ((s.set_if_flag cpu_flags.AC b).set_Z_S_P_flags v).get_flag cpu_flags.P
        = (bit_count8 (v &&& 0xFF) % 2 == 0)
    ∧ ∀ reg ∈ non_flag_regs,
        ((s.set_if_flag cpu_flags.AC b).set_Z_S_P_flags v).get_register8 reg
          = s.get_register8 reg := by
  refine ⟨?_, ?_, ?_, ?_, ?_, ?_⟩
  · rw [get_flag_zsp _ _ _ (by decide), get_flag_set_if_flag _ _ _ _ (by decide) (by decide)]
    simp [cpu_flags.C, cpu_flags.P, cpu_flags.AC, cpu_flags.Z, cpu_flags.S]
  · rw [get_flag_zsp _ _ _ (by decide), get_flag_set_if_flag _ _ _ _ (by decide) (by decide)]
    simp [cpu_flags.C, cpu_flags.P, cpu_flags.AC, cpu_flags.Z, cpu_flags.S]
  · rw [get_flag_zsp _ _ _ (by decide)]
    simp [cpu_flags.C, cpu_flags.P, cpu_flags.AC, cpu_flags.Z, cpu_flags.S]
  · rw [get_flag_zsp _ _ _ (by decide)]
    simp [cpu_flags.C, cpu_flags.P, cpu_flags.AC, cpu_flags.Z, cpu_flags.S]
  · rw [get_flag_zsp _ _ _ (by decide)]
    simp [cpu_flags.C, cpu_flags.P, cpu_flags.AC, cpu_flags.Z, cpu_flags.S]
  · intro reg hreg
    rw [get8_zsp _ _ _ hreg, get8_set_if_flag _ _ _ _ hreg]
/-- A 16-bit register read is fixed by the word mask. -/
theorem get_register16_mask (s : cpu_state) (p : Nat) :
    s.get_register16 p &&& 0xFFFF = s.get_register16 p := by
  unfold cpu_state.get_register16
  rw [Nat.and_assoc, show (0xFFFF &&& 0xFFFF : Nat) = 0xFFFF from rfl]

/-- Byte values below 256 are fixed by the byte mask. -/
theorem zsp_byte_id : ∀ v < 256, (v &&& 0xFF) = v := by decide

/-- Double byte reduction collapses. -/
theorem mod256_mod256 (x : Nat) : x % 256 % 256 = x % 256 :=
  Nat.mod_eq_of_lt (Nat.mod_lt _ (by norm_num))

/-- C3 (amended): `DCR` decrements its operand by one modulo 2^8 — a
register of the decode table, or the byte at `[HL]` on the memory form —
updates Z, S and P from the result, leaves the carry flag unchanged, and
sets AC if and only if no borrow out of bit 3 occurred, i.e. iff the low
nibble of the pre-decrement value was non-zero (the opposite of the
claimed borrow condition; this matches the 8080 subtraction convention the
spec itself records for the ALU). -/
theorem claim_C3_amended {μ : Type} (I : bus_iface μ) (c : cpu μ) (reg : Nat)
    (hreg : reg ∈ non_flag_regs) (cm : cpu (Nat → Nat)) :
    ((cpu.DCR I c reg).get8 reg = (c.get8 reg + 255) % 256
      ∧ (cpu.DCR I c reg).state.get_flag cpu_flags.C = c.state.get_flag cpu_flags.C
      ∧ (cpu.DCR I c reg).state.get_flag cpu_flags.AC
          = decide (c.get8 reg % 16 ≠ 0)
      ∧ (cpu.DCR I c reg).state.get_flag cpu_flags.Z
          = (((c.get8 reg + 255) % 256) == 0)
      ∧ (cpu.DCR I c reg).state.get_flag cpu_flags.S
          = ((((c.get8 reg + 255) % 256) &&& 0x80) != 0)
      ∧ (cpu.DCR I c reg).state.get_flag cpu_flags.P
          = (bit_count8 ((c.get8 reg + 255) % 256) % 2 == 0)
      ∧ (cpu.DCR I c reg).cardbus = c.cardbus)
    ∧ ((cpu.DCR array_iface cm cpu_registers8.M).cardbus
          (cm.state.get_register16 cpu_registers16.HL)
        = ((cm.cardbus (cm.state.get_register16 cpu_registers16.HL) &&& 0xFF) + 255) % 256
      ∧ (∀ x, x ≠ cm.state.get_register16 cpu_registers16.HL →
          (cpu.DCR array_iface cm cpu_registers8.M).cardbus x = cm.cardbus x)
      ∧ (cpu.DCR array_iface cm cpu_registers8.M).state.get_flag cpu_flags.C
          = cm.state.get_flag cpu_flags.C
      ∧ (cpu.DCR array_iface cm cpu_registers8.M).state.get_flag cpu_flags.AC
          = decide ((cm.cardbus (cm.state.get_register16 cpu_registers16.HL) &&& 0xFF) % 16 ≠ 0)
      ∧ (cpu.DCR array_iface cm cpu_registers8.M).state.get_flag cpu_flags.Z
          = ((((cm.cardbus (cm.state.get_register16 cpu_registers16.HL) &&& 0xFF) + 255) % 256) == 0)
      ∧ (cpu.DCR array_iface cm cpu_registers8.M).state.get_flag cpu_flags.S
          = (((((cm.cardbus (cm.state.get_register16 cpu_registers16.HL) &&& 0xFF) + 255) % 256)
              &&& 0x80) != 0)
      ∧ (cpu.DCR array_iface cm cpu_registers8.M).state.get_flag cpu_flags.P
          = (bit_count8 ((((cm.cardbus (cm.state.get_register16 cpu_registers16.HL) &&& 0xFF) + 255)
              % 256)) % 2 == 0)) := by
  have hv : c.state.get_register8 reg < 256 := get_register8_lt _ _
  have hdec : (c.state.get_register8 reg + 255) % 256 < 256 := Nat.mod_lt _ (by norm_num)
  have hmem := nfr_not_memref reg hreg
  constructor
  · unfold cpu.DCR
    rw [hmem]
    simp only [Bool.false_eq_true, if_false, cpu.get8, cpu.set8, cpu.zsp,
      cpu.flgAC_set, cpu_state.flgAC_set]
    have tail := ac_zsp_tail
      (c.state.set_register8 reg ((c.state.get_register8 reg + 255) % 256))
      (((((c.state.get_register8 reg + 255) % 256)
          ^^^ ((c.state.get_register8 reg + 255) % 256 + 1)) &&& 0x10) == 0)
      ((c.state.get_register8 reg + 255) % 256)
    refine ⟨?_, ?_, ?_, ?_, ?_, ?_, ?_⟩
    · rw [tail.2.2.2.2.2 reg hreg, get8_set8_same _ _ _ hreg, zsp_byte_id _ hdec]
    · rw [tail.1, get_flag_set8_other _ _ _ _ hreg]
    · rw [tail.2.1]
      exact dcr_ac_formula _ hv
    · rw [tail.2.2.1, zsp_byte_id _ hdec]
    · rw [tail.2.2.2.1, zsp_byte_id _ hdec]
    · rw [tail.2.2.2.2.1, zsp_byte_id _ hdec]
    · trivial
  · have hv0 : cm.cardbus (cm.state.get_register16 cpu_registers16.HL) &&& 0xFF < 256 := and_byte_lt _
    have hd0 : ((cm.cardbus (cm.state.get_register16 cpu_registers16.HL) &&& 0xFF) + 255) % 256 < 256 :=
      Nat.mod_lt _ (by norm_num)
    have hhl : cm.state.get_register16 cpu_registers16.HL &&& 0xFFFF = cm.state.get_register16 cpu_registers16.HL := by
      show (cm.state.registers.get 3 &&& 0xFFFF) &&& 0xFFFF = _
      rw [Nat.and_assoc, show (0xFFFF &&& 0xFFFF : Nat) = 0xFFFF from rfl]
      rfl
    have hlt : cm.cardbus (cm.state.get_register16 cpu_registers16.HL) % 256 < 256 :=
      Nat.mod_lt _ (by norm_num)
    have hlt2 : (cm.cardbus (cm.state.get_register16 cpu_registers16.HL) % 256 + 255) % 256
        < 256 := Nat.mod_lt _ (by norm_num)
    simp only [cpu.DCR, cpu.DCR_M, is_memref, cpu_registers8.M, cpu.mem_read,
      cpu.mem_write, array_iface, cpu.get16, cpu.zsp, cpu.flgAC_set,
      cpu_state.flgAC_set, cpu.get8, Nat.and_assoc, get_register16_mask,
      beq_self_eq_true, if_true, show ((255 : Nat) &&& 255) = 255 from rfl,
      and_255_eq_mod, mod256_mod256]
    refine ⟨?_, ?_, ?_, ?_, ?_, ?_, ?_⟩
    · trivial
    · intro x hx
      rw [if_neg hx]
    · rw [(ac_zsp_tail _ _ _).1]
    · rw [(ac_zsp_tail _ _ _).2.1]
      exact dcr_ac_formula _ hlt
    · rw [(ac_zsp_tail _ _ _).2.2.1, and_255_eq_mod, Nat.mod_eq_of_lt hlt2]
    · rw [(ac_zsp_tail _ _ _).2.2.2.1, and_255_eq_mod, Nat.mod_eq_of_lt hlt2]
    · rw [(ac_zsp_tail _ _ _).2.2.2.2.1, and_255_eq_mod, Nat.mod_eq_of_lt hlt2]

/-- C3 counterexample: decrementing `B = 0x10` (low nibble zero, so a
borrow out of bit 3 occurs) leaves AC clear, where the claim demands AC
set. -/
theorem claim_C3_counterexample :
    ((cpu.mk_new (fun _ : Nat => (0 : Nat))).set8 cpu_registers8.B 0x10).get8
        cpu_registers8.B % 16 = 0
    ∧ (cpu.DCR array_iface
        ((cpu.mk_new (fun _ : Nat => (0 : Nat))).set8 cpu_registers8.B 0x10)
        cpu_registers8.B).state.get_flag cpu_flags.AC = false := by
  constructor
  · decide
  · decide

/-- Closed witness for C3 (amended) at `B = 0x11`. -/
theorem claim_C3_amended_witness :
    cpu_registers8.B ∈ non_flag_regs
    ∧ (cpu.DCR array_iface
        ((cpu.mk_new (fun _ : Nat => (0 : Nat))).set8 cpu_registers8.B 0x11)
        cpu_registers8.B).state.get_flag cpu_flags.AC
      = decide (((cpu.mk_new (fun _ : Nat => (0 : Nat))).set8 cpu_registers8.B 0x11).get8
          cpu_registers8.B % 16 ≠ 0) :=
  ⟨by decide,
   (claim_C3_amended array_iface
      ((cpu.mk_new (fun _ : Nat => (0 : Nat))).set8 cpu_registers8.B 0x11)
      cpu_registers8.B (by decide)
      ((cpu.mk_new (fun _ : Nat => (0 : Nat))).set8 cpu_registers8.B 0x11)).1.2.2.1⟩

/-- A byte-bounded value has no bit 8. -/
theorem byte_no_carry : ∀ x < 256, ((x &&& 0x100) != 0) = false := by decide

/-- Effect of the ALU tail for the AND operation: `flgAC_set b1`, then the
common `flgC_set b2`, `set_Z_S_P_flags v` and accumulator writeback. -/
theorem alu_and_tail (s : cpu_state) (b1 b2 : Bool) (v w : Nat) :
    ((((s.set_if_flag cpu_flags.AC b1).set_if_flag cpu_flags.C b2).set_Z_S_P_flags
        v).set_register8 cpu_registers8.A w).get_register8 cpu_registers8.A = w &&& 0xFF
    ∧ ((((s.set_if_flag cpu_flags.AC b1).set_if_flag cpu_flags.C b2).set_Z_S_P_flags
        v).set_register8 cpu_registers8.A w).get_flag cpu_flags.C = b2
    ∧ ((((s.set_if_flag cpu_flags.AC b1).set_if_flag cpu_flags.C b2).set_Z_S_P_flags
        v).set_register8 cpu_registers8.A w).get_flag cpu_flags.AC = b1
    ∧ ((((s.set_if_flag cpu_flags.AC b1).set_if_flag cpu_flags.C b2).set_Z_S_P_flags
        v).set_register8 cpu_registers8.A w).get_flag cpu_flags.Z = ((v &&& 0xFF) == 0)
    ∧ ((((s.set_if_flag cpu_flags.AC b1).set_if_flag cpu_flags.C b2).set_Z_S_P_flags
        v).set_register8 cpu_registers8.A w).get_flag cpu_flags.S
      = (((v &&& 0xFF) &&& 0x80) != 0)
    ∧ ((((s.set_if_flag cpu_flags.AC b1).set_if_flag cpu_flags.C b2).set_Z_S_P_flags
        v).set_register8 cpu_registers8.A w).get_flag cpu_flags.P
      = (bit_count8 (v &&& 0xFF) % 2 == 0) := by
  have hA : cpu_registers8.A ∈ non_flag_regs := by decide
  refine ⟨get8_set8_same _ _ _ hA, ?_, ?_, ?_, ?_, ?_⟩
  · rw [get_flag_set8_other _ _ _ _ hA, get_flag_zsp _ _ _ (by decide),
      get_flag_set_if_flag _ _ _ _ (by decide) (by decide)]
    simp [cpu_flags.C, cpu_flags.P, cpu_flags.AC, cpu_flags.Z, cpu_flags.S]
  · rw [get_flag_set8_other _ _ _ _ hA, get_flag_zsp _ _ _ (by decide),
      get_flag_set_if_flag _ _ _ _ (by decide) (by decide),
      get_flag_set_if_flag _ _ _ _ (by decide) (by decide)]
    simp [cpu_flags.C, cpu_flags.P, cpu_flags.AC, cpu_flags.Z, cpu_flags.S]
  · rw [get_flag_set8_other _ _ _ _ hA, get_flag_zsp _ _ _ (by decide)]
    simp [cpu_flags.C, cpu_flags.P, cpu_flags.AC, cpu_flags.Z, cpu_flags.S]
  · rw [get_flag_set8_other _ _ _ _ hA, get_flag_zsp _ _ _ (by decide)]
    simp [cpu_flags.C, cpu_flags.P, cpu_flags.AC, cpu_flags.Z, cpu_flags.S]
  · rw [get_flag_set8_other _ _ _ _ hA, get_flag_zsp _ _ _ (by decide)]
    simp [cpu_flags.C, cpu_flags.P, cpu_flags.AC, cpu_flags.Z, cpu_flags.S]

/-- Flag writes leave the `PC` cell. -/
theorem r5_set_if_flag (s : cpu_state) (f : Nat) (b : Bool) :
    (s.set_if_flag f b).registers.r5 = s.registers.r5 := by
  cases b <;> rfl

/-- `set_Z_S_P_flags` leaves the `PC` cell. -/
theorem r5_zsp (s : cpu_state) (v : Nat) :
    (s.set_Z_S_P_flags v).registers.r5 = s.registers.r5 := by
  unfold cpu_state.set_Z_S_P_flags
  rw [r5_set_if_flag, r5_set_if_flag, r5_set_if_flag]

/-- The ALU tail leaves `PC`. -/
theorem get16PC_alu_tail (s : cpu_state) (b1 b2 : Bool) (v w : Nat) :
    ((((s.set_if_flag cpu_flags.AC b1).set_if_flag cpu_flags.C b2).set_Z_S_P_flags
        v).set_register8 cpu_registers8.A w).get_register16 cpu_registers16.PC
      = s.get_register16 cpu_registers16.PC := by
  show ((((s.set_if_flag cpu_flags.AC b1).set_if_flag cpu_flags.C b2).set_Z_S_P_flags
      v).set_register8 cpu_registers8.A w).registers.r5 &&& 0xFFFF
    = s.registers.r5 &&& 0xFFFF
  rw [show ∀ (t : cpu_state) w,
      (t.set_register8 cpu_registers8.A w).registers.r5 = t.registers.r5
      from fun t w => rfl]
  rw [r5_zsp, r5_set_if_flag, r5_set_if_flag]

/-- C7 counterexample: `ANI 0x08` with `A = 0x08` sets AC (the code uses
the same `(A | op) & 0x08` rule for the immediate form), where the claim
demands `AC = 0` for `ANI`. -/
theorem claim_C7_counterexample :
    (cpu.ALU_IMM array_iface
        ((cpu.mk_new (fun _ : Nat => (0x08 : Nat))).set8 cpu_registers8.A 0x08)
        0b100).state.get_flag cpu_flags.AC = true := by decide

/-- C7 (amended): `ANA` — register, memory or immediate (`ANI`) form —
sets `A` to `A & op`, clears C, sets AC to `(A | op) & 0x08` (also for
`ANI`, contrary to the claim), and sets Z/S/P from the result; the
immediate form consumes its operand from `[PC]`, advancing `PC`. -/
theorem claim_C7_amended {μ : Type} (I : bus_iface μ) (c : cpu μ) (src : Nat)
    (hsrc : src ∈ non_flag_regs) (cm ci : cpu (Nat → Nat)) :
    ((cpu.ALU I c src 0b100).get8 cpu_registers8.A
        = c.get8 cpu_registers8.A &&& c.get8 src
      ∧ (cpu.ALU I c src 0b100).state.get_flag cpu_flags.C = false
      ∧ (cpu.ALU I c src 0b100).state.get_flag cpu_flags.AC
          = (((c.get8 cpu_registers8.A ||| c.get8 src) &&& 0x08) != 0)
      ∧ (cpu.ALU I c src 0b100).state.get_flag cpu_flags.Z
          = ((c.get8 cpu_registers8.A &&& c.get8 src) == 0)
      ∧ (cpu.ALU I c src 0b100).state.get_flag cpu_flags.S
          = (((c.get8 cpu_registers8.A &&& c.get8 src) &&& 0x80) != 0)
      ∧ (cpu.ALU I c src 0b100).state.get_flag cpu_flags.P
          = (bit_count8 (c.get8 cpu_registers8.A &&& c.get8 src) % 2 == 0)
      ∧ (cpu.ALU I c src 0b100).cardbus = c.cardbus)
    ∧ ((cpu.ALU array_iface cm cpu_registers8.M 0b100).get8 cpu_registers8.A
        = cm.get8 cpu_registers8.A
            &&& (cm.cardbus (cm.state.get_register16 cpu_registers16.HL) &&& 0xFF)
      ∧ (cpu.ALU array_iface cm cpu_registers8.M 0b100).state.get_flag cpu_flags.C
          = false
      ∧ (cpu.ALU array_iface cm cpu_registers8.M 0b100).state.get_flag cpu_flags.AC
          = (((cm.get8 cpu_registers8.A
              ||| (cm.cardbus (cm.state.get_register16 cpu_registers16.HL) &&& 0xFF))
                &&& 0x08) != 0)
      ∧ (cpu.ALU array_iface cm cpu_registers8.M 0b100).cardbus = cm.cardbus)
    ∧ ((cpu.ALU_IMM array_iface ci 0b100).get8 cpu_registers8.A
        = ci.get8 cpu_registers8.A
            &&& (ci.cardbus (ci.state.get_register16 cpu_registers16.PC) &&& 0xFF)
      ∧ (cpu.ALU_IMM array_iface ci 0b100).state.get_flag cpu_flags.C = false
      ∧ (cpu.ALU_IMM array_iface ci 0b100).state.get_flag cpu_flags.AC
          = (((ci.get8 cpu_registers8.A
              ||| (ci.cardbus (ci.state.get_register16 cpu_registers16.PC) &&& 0xFF))
                &&& 0x08) != 0)
      ∧ (cpu.ALU_IMM array_iface ci 0b100).state.get_flag cpu_flags.Z
          = ((ci.get8 cpu_registers8.A
              &&& (ci.cardbus (ci.state.get_register16 cpu_registers16.PC) &&& 0xFF))
                == 0)
      ∧ (cpu.ALU_IMM array_iface ci 0b100).state.get_register16 cpu_registers16.PC
          = (ci.state.get_register16 cpu_registers16.PC + 1) % 65536
      ∧ (cpu.ALU_IMM array_iface ci 0b100).cardbus = ci.cardbus) := by
  have hmem := nfr_not_memref src hsrc
  have ha : c.state.get_register8 cpu_registers8.A < 256 := get_register8_lt _ _
  have hres : c.state.get_register8 cpu_registers8.A &&& c.state.get_register8 src < 256 :=
    lt_of_le_of_lt Nat.and_le_left ha
  refine ⟨?_, ?_, ?_⟩
  · unfold cpu.ALU cpu.ALU_work
    simp only [hmem, Bool.false_eq_true, if_false, if_true, cpu.get8, cpu.set8,
      cpu.zsp, cpu.flgC_set, cpu.flgAC_set, cpu_state.flgC_set, cpu_state.flgAC_set,
      show ((4 : Nat) != 7) = true from rfl]
    refine ⟨?_, ?_, ?_, ?_, ?_, ?_, ?_⟩
    · rw [(alu_and_tail _ _ _ _ _).1, zsp_byte_id _ hres]
    · rw [(alu_and_tail _ _ _ _ _).2.1]
      exact byte_no_carry _ hres
    · exact (alu_and_tail _ _ _ _ _).2.2.1
    · rw [(alu_and_tail _ _ _ _ _).2.2.2.1, zsp_byte_id _ hres]
    · rw [(alu_and_tail _ _ _ _ _).2.2.2.2.1, zsp_byte_id _ hres]
    · rw [(alu_and_tail _ _ _ _ _).2.2.2.2.2, zsp_byte_id _ hres]
    · first
      | rfl
      | trivial
  · have ham : cm.state.get_register8 cpu_registers8.A < 256 := get_register8_lt _ _
    have hresm : cm.state.get_register8 cpu_registers8.A
        &&& (cm.cardbus (cm.state.get_register16 cpu_registers16.HL) % 256) < 256 :=
      lt_of_le_of_lt Nat.and_le_left ham
    simp only [cpu.ALU, cpu.ALU_work, is_memref, cpu_registers8.M, cpu.mem_read,
      array_iface, cpu.get16, cpu.get8, cpu.set8, cpu.zsp, cpu.flgC_set,
      cpu.flgAC_set, cpu_state.flgC_set, cpu_state.flgAC_set, Nat.and_assoc,
      get_register16_mask, beq_self_eq_true, if_true, Bool.false_eq_true, if_false,
      show ((255 : Nat) &&& 255) = 255 from rfl, and_255_eq_mod, mod256_mod256,
      show ((4 : Nat) != 7) = true from rfl]
    refine ⟨?_, ?_, ?_, ?_⟩
    · rw [(alu_and_tail _ _ _ _ _).1, and_255_eq_mod, Nat.mod_eq_of_lt hresm]
    · rw [(alu_and_tail _ _ _ _ _).2.1, ← Nat.and_assoc]
      exact byte_no_carry _ hresm
    · exact (alu_and_tail _ _ _ _ _).2.2.1
    · first
      | rfl
      | trivial
  · have hai : ci.state.get_register8 cpu_registers8.A < 256 := get_register8_lt _ _
    have hresi : ci.state.get_register8 cpu_registers8.A
        &&& (ci.cardbus (ci.state.get_register16 cpu_registers16.PC) % 256) < 256 :=
      lt_of_le_of_lt Nat.and_le_left hai
    simp only [cpu.ALU_IMM, cpu.ALU_work, cpu.fetch, cpu.fetch_default, cpu.mem_read,
      cpu_state.get_then_inc_register16, array_iface, Bool.false_and,
      Bool.false_eq_true, if_false, if_true, cpu.get16, cpu.get8, cpu.set8, cpu.zsp,
      cpu.flgC_set, cpu.flgAC_set, cpu_state.flgC_set, cpu_state.flgAC_set,
      Nat.and_assoc, get_register16_mask, beq_self_eq_true,
      show ((255 : Nat) &&& 255) = 255 from rfl, and_255_eq_mod, mod256_mod256,
      show ((4 : Nat) != 7) = true from rfl]
    refine ⟨?_, ?_, ?_, ?_, ?_, trivial⟩
    · rw [(alu_and_tail _ _ _ _ _).1, and_255_eq_mod, Nat.mod_eq_of_lt hresi]
    · rw [(alu_and_tail _ _ _ _ _).2.1, ← Nat.and_assoc]
      exact byte_no_carry _ hresi
    · exact (alu_and_tail _ _ _ _ _).2.2.1
    · rw [(alu_and_tail _ _ _ _ _).2.2.2.1, and_255_eq_mod, Nat.mod_eq_of_lt hresi]
    · rw [get16PC_alu_tail]
      unfold cpu_state.get_register16
      rw [show ∀ (r : reg_file) v,
          (r.set cpu_registers16.PC v).get cpu_registers16.PC = v from fun r v => rfl,
          Nat.and_assoc, show ((65535 : Nat) &&& 65535) = 65535 from rfl,
          and_65535_eq_mod]

/-- Closed witness for C7 (amended) with `A = 0x05`, `B = 0x0C`. -/
theorem claim_C7_amended_witness :
    cpu_registers8.B ∈ non_flag_regs
    ∧ (cpu.ALU array_iface
        ((cpu.mk_new (fun _ : Nat => (0x05 : Nat))).set8 cpu_registers8.A 0x05)
        cpu_registers8.B 0b100).get8 cpu_registers8.A
      = ((cpu.mk_new (fun _ : Nat => (0x05 : Nat))).set8 cpu_registers8.A 0x05).get8
          cpu_registers8.A
        &&& ((cpu.mk_new (fun _ : Nat => (0x05 : Nat))).set8 cpu_registers8.A 0x05).get8
          cpu_registers8.B :=
  ⟨by decide,
   (claim_C7_amended array_iface
      ((cpu.mk_new (fun _ : Nat => (0x05 : Nat))).set8 cpu_registers8.A 0x05)
      cpu_registers8.B (by decide)
      ((cpu.mk_new (fun _ : Nat => (0x05 : Nat))).set8 cpu_registers8.A 0x05)
      ((cpu.mk_new (fun _ : Nat => (0x05 : Nat))).set8 cpu_registers8.A 0x05)).1.1⟩

/-- Reading back `SP` after a 16-bit `SP` write. -/
theorem get16SP_set16SP (t : cpu_state) (v : Nat) :
    (t.set_register16 cpu_registers16.SP v).get_register16 cpu_registers16.SP
      = v % 65536 := by
  rw [show (t.set_register16 cpu_registers16.SP v).get_register16 cpu_registers16.SP
      = (v &&& 0xFFFF) &&& 0xFFFF from rfl, Nat.and_assoc,
    show ((65535 : Nat) &&& 65535) = 65535 from rfl, and_65535_eq_mod]

/-- A 16-bit `SP` write leaves `PC`. -/
theorem get16PC_set16SP (t : cpu_state) (v : Nat) :
    (t.set_register16 cpu_registers16.SP v).get_register16 cpu_registers16.PC
      = t.get_register16 cpu_registers16.PC := rfl

/-- A 16-bit residue is fixed by the word mask. -/
theorem mod65536_and (x : Nat) : (x % 65536) &&& 0xFFFF = x % 65536 := by
  rw [and_65535_eq_mod]
  exact Nat.mod_eq_of_lt (Nat.mod_lt _ (by norm_num))

/-- The CPU value inside `execute(inst[0], inst[1], inst[2])` right before
the redirected `execute(inst[0])` runs during interrupt acceptance: the
interrupt-disabled, `PC`-pushed CPU with the operand buffer loaded and the
fetch pointers aimed at it. -/
def interrupt_ext_state (c : cpu bus) (inst : Nat × Nat × Nat) : cpu bus :=
  cpu.set_fetch_ext cardbus_iface
    { cpu.PUSH cardbus_iface { c with interrupts_enabled := false }
        cpu_registers16.PC with
      ext_op0 := inst.2.1 &&& 0xFF, ext_op1 := inst.2.2 &&& 0xFF } true

/-- `PUSH PC` unfolded one step (the `SP` remap does not fire). -/
theorem push_unfold (c : cpu bus) :
    cpu.PUSH cardbus_iface c cpu_registers16.PC
      = (let c1 := c.set16 cpu_registers16.SP (c.get16 cpu_registers16.SP + 65534)
         let c2 := cpu.mem_write cardbus_iface c1 (c1.get16 cpu_registers16.SP)
           (c1.get16 cpu_registers16.PC &&& 0xFF)
         cpu.mem_write cardbus_iface c2 (c2.get16 cpu_registers16.SP + 1)
           (c2.get16 cpu_registers16.PC >>> 8)) := rfl

/-- The bus after a memory write through the real-bus interface. -/
theorem cmem_write_cardbus (c : cpu bus) (a b : Nat) :
    (cpu.mem_write cardbus_iface c a b).cardbus
      = bus.write c.cardbus (a &&& 0xFFFF) (b &&& 0xFF) false := rfl

/-- A memory write leaves every register pair. -/
theorem cmem_write_get16 {m : Type} (I : bus_iface m) (c : cpu m) (a b p : Nat) :
    (cpu.mem_write I c a b).get16 p = c.get16 p := rfl

/-- A register write leaves the bus. -/
theorem cset16_cardbus {m : Type} (c : cpu m) (p v : Nat) :
    (c.set16 p v).cardbus = c.cardbus := rfl

/-- Reading back `SP` right after writing it. -/
theorem cset16SP_get16SP {m : Type} (c : cpu m) (v : Nat) :
    (c.set16 cpu_registers16.SP v).get16 cpu_registers16.SP = v % 65536 :=
  get16SP_set16SP _ _

/-- Writing `SP` leaves `PC`. -/
theorem cset16SP_get16PC {m : Type} (c : cpu m) (v : Nat) :
    (c.set16 cpu_registers16.SP v).get16 cpu_registers16.PC
      = c.state.get_register16 cpu_registers16.PC := rfl

/-- Disabling interrupts leaves every register pair. -/
theorem cie_get16 (c : cpu bus) (p : Nat) :
    cpu.get16 ({ c with interrupts_enabled := false }) p
      = c.state.get_register16 p := rfl

/-- Disabling interrupts leaves the bus. -/
theorem cie_cardbus (c : cpu bus) :
    ({ c with interrupts_enabled := false } : cpu bus).cardbus = c.cardbus := rfl

/-- Disabling interrupts leaves the register file. -/
theorem cie_state_get16 (c : cpu bus) (p : Nat) :
    ({ c with interrupts_enabled := false } : cpu bus).state.get_register16 p
      = c.state.get_register16 p := rfl

/-- C6: with interrupts enabled, `interrupt(inst)` disables interrupts,
pushes `PC` (`SP` drops by two, low byte of `PC` written on the bus at
`[SP]`, high byte at `[SP+1]`), then executes `inst[0]` through the
operand buffer: the redirected fetches return `inst[1]` then `inst[2]`
without touching the bus or the register file, and the fetch source is
back to the default after the instruction. -/
theorem claim_C6 (c : cpu bus) (inst : Nat × Nat × Nat)
    (h1 : c.interrupts_enabled = true) (h2 : c.ext_op_idx = false) :
    cpu.interrupt cardbus_iface c inst
        = cpu.execute_ops cardbus_iface
            (cpu.PUSH cardbus_iface { c with interrupts_enabled := false }
              cpu_registers16.PC) inst.1 inst.2.1 inst.2.2
    ∧ (cpu.PUSH cardbus_iface { c with interrupts_enabled := false }
          cpu_registers16.PC).state.get_register16 cpu_registers16.SP
        = (c.state.get_register16 cpu_registers16.SP + 65534) % 65536
    ∧ (cpu.PUSH cardbus_iface { c with interrupts_enabled := false }
          cpu_registers16.PC).cardbus
        = bus.write
            (bus.write c.cardbus
              ((c.state.get_register16 cpu_registers16.SP + 65534) % 65536)
              (c.state.get_register16 cpu_registers16.PC &&& 0xFF) false)
            (((c.state.get_register16 cpu_registers16.SP + 65534) % 65536 + 1)
              &&& 0xFFFF)
            (c.state.get_register16 cpu_registers16.PC >>> 8) false
    ∧ (cpu.interrupt cardbus_iface c inst).fetch_ext_on = false
    ∧ (cpu.fetch cardbus_iface (interrupt_ext_state c inst)).1 = inst.2.1 &&& 0xFF
    ∧ (cpu.fetch cardbus_iface (interrupt_ext_state c inst)).2.cardbus
        = (interrupt_ext_state c inst).cardbus
    ∧ (cpu.fetch cardbus_iface (interrupt_ext_state c inst)).2.state
        = (interrupt_ext_state c inst).state
    ∧ (cpu.fetch cardbus_iface
        ((cpu.fetch cardbus_iface (interrupt_ext_state c inst)).2)).1
        = inst.2.2 &&& 0xFF := by
  have hPC : c.state.get_register16 cpu_registers16.PC < 65536 := get_register16_lt _ _
  have hPChi : c.state.get_register16 cpu_registers16.PC >>> 8 < 256 := by
    rw [Nat.shiftRight_eq_div_pow]
    exact Nat.div_lt_of_lt_mul (by norm_num at hPC ⊢; omega)
  refine ⟨?_, ?_, ?_, ?_, ?_, ?_, ?_, ?_⟩
  · simp [cpu.interrupt, h1]
  · unfold cpu.PUSH
    simp only [cpu.mem_write, cpu.set16, cpu.get16]
    exact get16SP_set16SP _ _
  · rw [push_unfold]
    dsimp only
    rw [cmem_write_cardbus, cmem_write_cardbus, cset16_cardbus, cie_cardbus]
    rw [cmem_write_get16, cmem_write_get16]
    rw [cset16SP_get16SP, cset16SP_get16PC]
    rw [cie_get16, cie_state_get16]
    rw [mod65536_and, Nat.and_assoc,
      show ((255 : Nat) &&& 255) = 255 from rfl, zsp_byte_id _ hPChi]
  · simp [cpu.interrupt, h1, cpu.execute_ops, cpu.set_fetch_ext, cardbus_iface]
  · simp [interrupt_ext_state, cpu.set_fetch_ext, cardbus_iface, cpu.fetch,
      cpu.fetch_ext, cpu.PUSH, cpu.mem_write, cpu.set16, h2]
  · rfl
  · rfl
  · simp [interrupt_ext_state, cpu.set_fetch_ext, cardbus_iface, cpu.fetch,
      cpu.fetch_ext, cpu.PUSH, cpu.mem_write, cpu.set16, h2]

/-- Closed witness for C6: the freshly constructed CPU on an empty bus
has interrupts enabled and the operand-buffer index at 0, and an
`interrupt((0xC7, 0x34, 0x12))` leaves the fetch source at the default
with the redirected first fetch returning `0x34`. -/
theorem claim_C6_witness :
    ((cpu.mk_new bus.init : cpu bus).interrupts_enabled = true
      ∧ (cpu.mk_new bus.init : cpu bus).ext_op_idx = false)
    ∧ (cpu.interrupt cardbus_iface (cpu.mk_new bus.init)
        (0xC7, 0x34, 0x12)).fetch_ext_on = false
    ∧ (cpu.fetch cardbus_iface
        (interrupt_ext_state (cpu.mk_new bus.init) (0xC7, 0x34, 0x12))).1
        = 0x34 &&& 0xFF :=
  ⟨⟨rfl, rfl⟩,
   (claim_C6 (cpu.mk_new bus.init) (0xC7, 0x34, 0x12) rfl rfl).2.2.2.1,
   (claim_C6 (cpu.mk_new bus.init) (0xC7, 0x34, 0x12) rfl rfl).2.2.2.2.1⟩

end Buddy
